/-
Verification of the document-processing and assessment workflow of the
social-security-system repository.

Shallow embedding conventions:
* Python dictionaries with a fixed set of interesting keys become Lean
  structures whose fields are `Option`-typed: `none` models an absent key,
  `some v` a present key (`dict.get(k, d)` becomes `(·.k).getD d`).
* Python numbers (ints and floats) are modelled as rationals `ℚ`; all the
  thresholds and weights in the assessment criteria are exact decimals, so
  the rational model matches the code's float arithmetic at every boundary
  a claim talks about.
* LLM calls (`llm.generate_response` / `generate_structured_response`) are
  the repository's external model boundary: a call either returns an
  analysis string or raises.  They are modelled by an oracle
  `String → Except String String` keyed by the call site; the prompt text
  itself (an f-string of the data) has no influence on any verified
  behaviour and is abstracted to the call-site tag.
* Timestamp fields (`assessment_date`, `start_time`, ...) are environment
  dependent and influence no verified behaviour; they are omitted from the
  embedded records.
-/
import Mathlib

namespace SocialSecurity

/-! ## String helpers

Python's `in` on strings is substring containment and `.lower()` maps
characters to lower case.  Substring containment is embedded through
`List.IsInfix` on the character lists, which is decidable and executable. -/

/-- Python `needle in hay` on strings: substring containment. -/
def strContains (hay needle : String) : Bool :=
  decide (needle.toList <:+: hay.toList)

/-- Python `s.lower()` (the identifiers and keywords compared in the code are
ASCII, where `Char.toLower` agrees with Python). -/
def lowerStr (s : String) : String :=
  String.mk (s.toList.map Char.toLower)

/-- Python truthiness of an optional string value: an absent key and the
empty string are falsy. -/
def pyTruthy : Option String → Bool
  | none => false
  | some s => s ≠ ""

/-- Python `max(a, b)` on rationals, written with an explicit comparison so
that the kernel can evaluate it on concrete inputs (it agrees with
`max`, see `qmax_eq`). -/
def qmax (a b : ℚ) : ℚ := if a ≤ b then b else a

/-- Python `min(a, b)` on rationals (agrees with `min`, see `qmin_eq`). -/
def qmin (a b : ℚ) : ℚ := if a ≤ b then a else b

namespace Assessment

/-! ## Data model of `assessment_agent.py`

`EligibilityStatus`, the application-data dictionary read by
`AssessmentAgent`, and the result records of the individual assessment
methods. -/

/-- `EligibilityStatus` enum. -/
inductive EligibilityStatus
  | approved
  | conditionally_approved
  | pending_review
  | rejected
  | insufficient_data
  deriving DecidableEq, Repr

/-- `.value` of the enum members. -/
def EligibilityStatus.value : EligibilityStatus → String
  | .approved => "approved"
  | .conditionally_approved => "conditionally_approved"
  | .pending_review => "pending_review"
  | .rejected => "rejected"
  | .insufficient_data => "insufficient_data"

/-- `application_data["applicant_info"]`: the nested keys the agent reads. -/
structure ApplicantInfo where
  name : Option String
  age : Option ℚ
  address : Option String
  full_name : Option String
  deriving DecidableEq, Repr

/-- `application_data["income_info"]`. -/
structure IncomeInfo where
  annual_income : Option ℚ
  deriving DecidableEq, Repr

/-- `application_data["employment_info"]`. -/
structure EmploymentInfo where
  current_status : Option String
  months_unemployed : Option ℚ
  deriving DecidableEq, Repr

/-- `application_data["family_info"]`. -/
structure FamilyInfo where
  family_size : Option ℚ
  dependents : Option ℚ
  special_circumstances : Option (List String)
  deriving DecidableEq, Repr

/-- `application_data["wealth_info"]`. -/
structure WealthInfo where
  savings : Option ℚ
  property_value : Option ℚ
  total_debts : Option ℚ
  deriving DecidableEq, Repr

/-- `application_data["demographic_info"]`: the keys feeding the
demographic score (`gender`/`ethnicity` are only interpolated into
prompts and are omitted). -/
structure DemographicInfo where
  disability_status : Option Bool
  veteran_status : Option Bool
  education_level : Option String
  deriving DecidableEq, Repr

/-- `application_data["personal_info"]`: consulted by the applicant-name
fallback chain of `_generate_final_recommendation`. -/
structure PersonalInfo where
  name : Option String
  full_name : Option String
  deriving DecidableEq, Repr

/-- The application-data dictionary passed to `assess_application`.
Top-level keys are optional: `none` models a missing group. -/
structure ApplicationData where
  application_id : Option String
  applicant_info : Option ApplicantInfo
  income_info : Option IncomeInfo
  employment_info : Option EmploymentInfo
  family_info : Option FamilyInfo
  wealth_info : Option WealthInfo
  demographic_info : Option DemographicInfo
  personal_info : Option PersonalInfo
  deriving DecidableEq, Repr

/-- `data.get(group, {}).get(field, default)`. -/
def getField {γ α : Type} (group : Option γ) (field : γ → Option α) (dflt : α) : α :=
  (group.bind field).getD dflt

/-! ## Assessment criteria (`_get_default_criteria`) -/

/-- `criteria["income_thresholds"]["moderate"]`. -/
def moderateIncomeThreshold : ℚ := 75000

/-- `criteria["family_size_multipliers"].get(family_size if family_size <= 5
else "6+", 1.0)`: the dictionary keys are the integers 1..5 and the string
`"6+"`; a non-integral or non-positive size `≤ 5` misses every key and takes
the default 1.0. -/
def familyMultiplier (family_size : ℚ) : ℚ :=
  if family_size ≤ 5 then
    if family_size = 1 then 1
    else if family_size = 2 then 13/10
    else if family_size = 3 then 8/5
    else if family_size = 4 then 19/10
    else if family_size = 5 then 11/5
    else 1
  else 5/2

/-- `criteria["employment_stability_weights"].get(current_status, 0.5)`. -/
def stabilityWeight (current_status : String) : ℚ :=
  if current_status = "unemployed" then 1
  else if current_status = "part_time" then 7/10
  else if current_status = "temporary" then 3/5
  else if current_status = "full_time" then 3/10
  else if current_status = "self_employed" then 1/2
  else 1/2

/-! ## Validation (`_validate_application_data`) -/

/-- The nested `applicant_info` error messages, one per missing key of
`["name", "age", "address"]`. -/
def nestedMissing (ai : ApplicantInfo) : List String :=
  (if ai.name.isNone then ["Missing applicant info: name"] else [])
    ++ (if ai.age.isNone then ["Missing applicant info: age"] else [])
    ++ (if ai.address.isNone then ["Missing applicant info: address"] else [])

/-- The top-level required-field error messages for
`["applicant_info", "income_info", "employment_info", "family_info"]`. -/
def groupMissing (data : ApplicationData) : List String :=
  (if data.applicant_info.isNone then ["Missing required field: applicant_info"] else [])
    ++ (if data.income_info.isNone then ["Missing required field: income_info"] else [])
    ++ (if data.employment_info.isNone then ["Missing required field: employment_info"] else [])
    ++ (if data.family_info.isNone then ["Missing required field: family_info"] else [])

/-- Result of `_validate_application_data`. -/
structure ValidationResult where
  valid : Bool
  errors : List String
  deriving DecidableEq, Repr

/-- `_validate_application_data`. -/
def validateApplicationData (data : ApplicationData) : ValidationResult :=
  let errors := groupMissing data
      ++ (match data.applicant_info with
          | some ai => nestedMissing ai
          | none => [])
  { valid := errors.length = 0, errors := errors }

/-! ## The five category scores

Each `_assess_*` method computes its numeric score from the data before
requesting an LLM analysis; the score expressions are factored out here and
reused by the monadic method embeddings below. -/

/-- `income_ratio` of `_assess_income_eligibility`: the adjusted threshold is
`75000 * multiplier`, and the guard `if adjusted_threshold > 0` is live in
the code (the threshold is always positive with the default criteria). -/
def incomeRatio (data : ApplicationData) : ℚ :=
  let annual_income := getField data.income_info IncomeInfo.annual_income 0
  let family_size := getField data.family_info FamilyInfo.family_size 1
  let adjusted_threshold := moderateIncomeThreshold * familyMultiplier family_size
  if 0 < adjusted_threshold then annual_income / adjusted_threshold else 0

/-- `eligibility_score` of `_assess_income_eligibility`. -/
def incomeScore (data : ApplicationData) : ℚ :=
  if incomeRatio data ≤ 2/5 then 1
  else if incomeRatio data ≤ 7/10 then 4/5
  else if incomeRatio data ≤ 1 then 1/2
  else 1/5

/-- `priority` of `_assess_income_eligibility`. -/
def incomePriority (data : ApplicationData) : String :=
  if incomeRatio data ≤ 2/5 then "high"
  else if incomeRatio data ≤ 7/10 then "medium"
  else if incomeRatio data ≤ 1 then "low"
  else "very_low"

/-- `unemployment_penalty` of `_assess_employment_history`:
`min(months_unemployed * 0.1, 0.5) if months_unemployed > 0 else 0`.
Note that the code **adds** this penalty to the stability weight. -/
def unemploymentPenalty (months_unemployed : ℚ) : ℚ :=
  if 0 < months_unemployed then qmin (months_unemployed * (1/10)) (1/2) else 0

/-- `employment_score = max(0, stability_weight + unemployment_penalty)`. -/
def employmentScore (data : ApplicationData) : ℚ :=
  let current_status := getField data.employment_info EmploymentInfo.current_status "unemployed"
  let months_unemployed := getField data.employment_info EmploymentInfo.months_unemployed 0
  qmax 0 (stabilityWeight current_status + unemploymentPenalty months_unemployed)

/-- `family_score` of `_assess_family_situation`. -/
def familyScore (data : ApplicationData) : ℚ :=
  let family_size := getField data.family_info FamilyInfo.family_size 1
  let dependents := getField data.family_info FamilyInfo.dependents 0
  let special := getField data.family_info FamilyInfo.special_circumstances []
  let dependency_ratio := if 0 < family_size then dependents / family_size else 0
  let base := dependency_ratio * (3/5)
  let withSpecial := base
      + (if "single_parent" ∈ special then 3/10 else 0)
      + (if "elderly_care" ∈ special then 1/5 else 0)
      + (if "disabled_member" ∈ special then 2/5 else 0)
  qmin withSpecial 1

/-- `debt_to_income` of `_assess_wealth_status`. -/
def debtToIncome (data : ApplicationData) : ℚ :=
  let debts := getField data.wealth_info WealthInfo.total_debts 0
  let annual_income := getField data.income_info IncomeInfo.annual_income 0
  if 0 < annual_income then debts / annual_income else 0

/-- `wealth_score` of `_assess_wealth_status`. -/
def wealthScore (data : ApplicationData) : ℚ :=
  let savings := getField data.wealth_info WealthInfo.savings 0
  let property_value := getField data.wealth_info WealthInfo.property_value 0
  let debts := getField data.wealth_info WealthInfo.total_debts 0
  let net_worth := savings + property_value - debts
  let acc := (if savings < 10000 then 3/10 else 0)
      + (if property_value < 200000 then 1/5 else 0)
      + (if 2/5 < debtToIncome data then 2/5 else 0)
      + (if net_worth < 0 then 3/10 else 0)
  qmin acc 1

/-- `demo_score` of `_assess_demographic_profile`. -/
def demographicScore (data : ApplicationData) : ℚ :=
  let age := getField data.applicant_info ApplicantInfo.age 0
  let disability := getField data.demographic_info DemographicInfo.disability_status false
  let veteran := getField data.demographic_info DemographicInfo.veteran_status false
  let education := getField data.demographic_info DemographicInfo.education_level ""
  let acc := (if 65 ≤ age then 3/10 else 0)
      + (if age ≤ 25 then 1/5 else 0)
      + (if disability then 2/5 else 0)
      + (if veteran then 3/10 else 0)
      + (if education = "high_school" ∨ education = "less_than_high_school" then 1/5 else 0)
  qmin acc 1

/-! ## Comprehensive assessment and final recommendation -/

/-- `overall_score` of `_generate_comprehensive_assessment`: the weighted sum
with weights income 0.35, employment 0.3, family 0.15, wealth 0.15,
demographic 0.05. -/
def overallScore (data : ApplicationData) : ℚ :=
  (35/100) * incomeScore data + (3/10) * employmentScore data
    + (15/100) * familyScore data + (15/100) * wealthScore data
    + (1/20) * demographicScore data

/-- `preliminary_status` banding of `_generate_comprehensive_assessment`. -/
def preliminaryStatus (overall : ℚ) : EligibilityStatus :=
  if 4/5 ≤ overall then .approved
  else if 49/100 ≤ overall then .conditionally_approved
  else if 2/5 ≤ overall then .pending_review
  else .rejected

/-- `final_status` of `_generate_final_recommendation`: starts from the
preliminary status string and is overridden at the ends. -/
def finalStatus (overall : ℚ) : String :=
  if overall < 3/10 then EligibilityStatus.rejected.value
  else if 4/5 ≤ overall then EligibilityStatus.approved.value
  else (preliminaryStatus overall).value

/-- `recommended_support` of `_generate_final_recommendation`. -/
def recommendedSupport (data : ApplicationData) : List String :=
  let overall := overallScore data
  (if 7/10 ≤ overall then ["financial_assistance", "economic_enablement"]
   else if 1/2 ≤ overall then ["economic_enablement"]
   else [])
    ++ (if getField data.employment_info EmploymentInfo.current_status "" = "unemployed"
        then ["skill_development"] else [])
    ++ (if 50000 < getField data.wealth_info WealthInfo.total_debts 0
        then ["debt_counseling"] else [])

/-- The applicant-name fallback chain of `_generate_final_recommendation`
(`applicant_info.name` → `applicant_info.full_name` → `personal_info.name`
→ `personal_info.full_name` → `"N/A"`), with Python truthiness. -/
def applicantNameOf (data : ApplicationData) : String :=
  let try1 := data.applicant_info.bind ApplicantInfo.name
  let try2 := data.applicant_info.bind ApplicantInfo.full_name
  let try3 := data.personal_info.bind PersonalInfo.name
  let try4 := data.personal_info.bind PersonalInfo.full_name
  if pyTruthy try1 then try1.getD ""
  else if pyTruthy try2 then try2.getD ""
  else if pyTruthy try3 then try3.getD ""
  else if pyTruthy try4 then try4.getD ""
  else "N/A"

/-- The per-category scores carried in `individual_assessments`. -/
structure IndividualScores where
  income : ℚ
  employment : ℚ
  family : ℚ
  wealth : ℚ
  demographic : ℚ
  deriving DecidableEq, Repr

/-- `individual_scores` collected by `_generate_comprehensive_assessment`. -/
def individualScores (data : ApplicationData) : IndividualScores :=
  { income := incomeScore data
    employment := employmentScore data
    family := familyScore data
    wealth := wealthScore data
    demographic := demographicScore data }

/-- The dictionary returned by `_generate_final_recommendation` on the
successful path (timestamps omitted, `assessor` constant omitted). -/
structure FinalResult where
  application_id : String
  applicant_name : String
  status : String
  overall_score : ℚ
  individual_assessments : IndividualScores
  recommended_support_types : List String
  final_analysis : String
  requires_human_review : Bool
  priority_level : String
  deriving DecidableEq, Repr

instance : Inhabited FinalResult :=
  ⟨{ application_id := "", applicant_name := "", status := "",
     overall_score := 0,
     individual_assessments :=
       { income := 0, employment := 0, family := 0, wealth := 0, demographic := 0 },
     recommended_support_types := [], final_analysis := "",
     requires_human_review := false, priority_level := "" }⟩

/-- The final dictionary as a function of the data and the LLM's final
analysis text — every other field of the returned record is computed from
`application_data` and the numeric scores. -/
def buildFinalResult (data : ApplicationData) (final_analysis : String) : FinalResult :=
  let overall := overallScore data
  { application_id := data.application_id.getD "N/A"
    applicant_name := applicantNameOf data
    status := finalStatus overall
    overall_score := overall
    individual_assessments := individualScores data
    recommended_support_types := recommendedSupport data
    final_analysis := final_analysis
    requires_human_review := decide (2/5 ≤ overall ∧ overall ≤ 3/5)
    priority_level :=
      if 4/5 ≤ overall then "high" else if 1/2 ≤ overall then "medium" else "low" }

/-! ## The monadic agent (`assess_application`)

The LLM interface is the external model boundary: each
`generate_response` call either returns an analysis string or raises.
The oracle is keyed by the call site; raising models any exception
escaping the awaited call. -/

/-- The `generate_response` capability of `LangChainLLMInterface`. -/
structure LLMInterface where
  generate_response : String → Except String String

/-- Record returned by `_assess_income_eligibility`. -/
structure IncomeAssessment where
  score : ℚ
  priority : String
  annual_income : ℚ
  adjusted_threshold : ℚ
  income_ratio : ℚ
  analysis : String
  meets_criteria : Bool
  deriving DecidableEq, Repr

/-- `_assess_income_eligibility`. -/
def assessIncomeEligibility (llm : LLMInterface) (data : ApplicationData) :
    Except String IncomeAssessment :=
  (llm.generate_response "income_eligibility").map fun analysis =>
    { score := incomeScore data
      priority := incomePriority data
      annual_income := getField data.income_info IncomeInfo.annual_income 0
      adjusted_threshold :=
        moderateIncomeThreshold
          * familyMultiplier (getField data.family_info FamilyInfo.family_size 1)
      income_ratio := incomeRatio data
      analysis := analysis
      meets_criteria := 1/2 ≤ incomeScore data }

/-- Record returned by `_assess_employment_history`. -/
structure EmploymentAssessment where
  score : ℚ
  current_status : String
  months_unemployed : ℚ
  stability_assessment : String
  analysis : String
  support_needed : Bool
  deriving DecidableEq, Repr

/-- `_assess_employment_history`. -/
def assessEmploymentHistory (llm : LLMInterface) (data : ApplicationData) :
    Except String EmploymentAssessment :=
  (llm.generate_response "employment_history").map fun analysis =>
    { score := employmentScore data
      current_status := getField data.employment_info EmploymentInfo.current_status "unemployed"
      months_unemployed := getField data.employment_info EmploymentInfo.months_unemployed 0
      stability_assessment := if employmentScore data < 1/2 then "stable" else "unstable"
      analysis := analysis
      support_needed := 3/5 < employmentScore data }

/-- Record returned by `_assess_family_situation`. -/
structure FamilyAssessment where
  score : ℚ
  family_size : ℚ
  dependents : ℚ
  analysis : String
  high_need : Bool
  deriving DecidableEq, Repr

/-- `_assess_family_situation`. -/
def assessFamilySituation (llm : LLMInterface) (data : ApplicationData) :
    Except String FamilyAssessment :=
  (llm.generate_response "family_situation").map fun analysis =>
    { score := familyScore data
      family_size := getField data.family_info FamilyInfo.family_size 1
      dependents := getField data.family_info FamilyInfo.dependents 0
      analysis := analysis
      high_need := 3/5 < familyScore data }

/-- Record returned by `_assess_wealth_status`. -/
structure WealthAssessment where
  score : ℚ
  net_worth : ℚ
  debt_to_income_ratio : ℚ
  savings : ℚ
  financial_stress : Bool
  analysis : String
  needs_financial_counseling : Bool
  deriving DecidableEq, Repr

/-- `_assess_wealth_status`. -/
def assessWealthStatus (llm : LLMInterface) (data : ApplicationData) :
    Except String WealthAssessment :=
  (llm.generate_response "wealth_status").map fun analysis =>
    { score := wealthScore data
      net_worth := getField data.wealth_info WealthInfo.savings 0
          + getField data.wealth_info WealthInfo.property_value 0
          - getField data.wealth_info WealthInfo.total_debts 0
      debt_to_income_ratio := debtToIncome data
      savings := getField data.wealth_info WealthInfo.savings 0
      financial_stress := 3/5 < wealthScore data
      analysis := analysis
      needs_financial_counseling := 1/2 < debtToIncome data }

/-- Record returned by `_assess_demographic_profile`. -/
structure DemographicAssessment where
  score : ℚ
  age : ℚ
  disability_status : Bool
  veteran_status : Bool
  analysis : String
  needs_specialized_support : Bool
  deriving DecidableEq, Repr

/-- `_assess_demographic_profile`. -/
def assessDemographicProfile (llm : LLMInterface) (data : ApplicationData) :
    Except String DemographicAssessment :=
  (llm.generate_response "demographic_profile").map fun analysis =>
    { score := demographicScore data
      age := getField data.applicant_info ApplicantInfo.age 0
      disability_status := getField data.demographic_info DemographicInfo.disability_status false
      veteran_status := getField data.demographic_info DemographicInfo.veteran_status false
      analysis := analysis
      needs_specialized_support := 1/2 < demographicScore data }

/-- Record returned by `_generate_comprehensive_assessment`. -/
structure ComprehensiveAssessment where
  overall_score : ℚ
  preliminary_status : String
  individual_scores : IndividualScores
  comprehensive_analysis : String
  deriving DecidableEq, Repr

/-- `_generate_comprehensive_assessment`. -/
def generateComprehensiveAssessment (llm : LLMInterface) (data : ApplicationData) :
    Except String ComprehensiveAssessment :=
  (llm.generate_response "comprehensive_assessment").map fun analysis =>
    { overall_score := overallScore data
      preliminary_status := (preliminaryStatus (overallScore data)).value
      individual_scores := individualScores data
      comprehensive_analysis := analysis }

/-- `_generate_final_recommendation`. -/
def generateFinalRecommendation (llm : LLMInterface) (data : ApplicationData) :
    Except String FinalResult :=
  (llm.generate_response "final_recommendation").map fun analysis =>
    buildFinalResult data analysis

/-- The union of the three dictionary shapes `assess_application` can
return: the insufficient-data early return, the exception handler's
pending-review record, and the completed final recommendation. -/
inductive AssessOutcome
  | insufficient (reasons : List String)
  | errored (reason : String)
  | completed (result : FinalResult)
  deriving DecidableEq, Repr

/-- The `"status"` entry of each returned dictionary. -/
def AssessOutcome.status : AssessOutcome → String
  | .insufficient _ => EligibilityStatus.insufficient_data.value
  | .errored _ => EligibilityStatus.pending_review.value
  | .completed r => r.status

/-- The body of `assess_application`'s `try` block: validation early
return, then the five category assessments, the comprehensive assessment
and the final recommendation, any of whose LLM calls may raise. -/
def assessApplicationBody (llm : LLMInterface) (data : ApplicationData) :
    Except String AssessOutcome := do
  let validation := validateApplicationData data
  if validation.valid then do
    let _income ← assessIncomeEligibility llm data
    let _employment ← assessEmploymentHistory llm data
    let _family ← assessFamilySituation llm data
    let _wealth ← assessWealthStatus llm data
    let _demographic ← assessDemographicProfile llm data
    let _comprehensive ← generateComprehensiveAssessment llm data
    let final ← generateFinalRecommendation llm data
    pure (.completed final)
  else
    pure (.insufficient validation.errors)

/-- `assess_application`: runs the body and converts any exception into a
pending-review record carrying `"Assessment error: " ++ message`. -/
def assessApplication (llm : LLMInterface) (data : ApplicationData) : AssessOutcome :=
  match assessApplicationBody llm data with
  | .ok outcome => outcome
  | .error e => .errored ("Assessment error: " ++ e)

end Assessment

namespace Classifier

/-! ## Document classifier (`document_processor._classify_document_type`)

The extracted content enters classification only through its lowercased
`text` field; it is modelled as an optional text string (`None` /
a falsy empty dict never reaches the text test). -/

/-- `DocumentType` enum. -/
inductive DocumentType
  | emirates_id
  | resume
  | assets_liabilities
  | credit_report
  | bank_statement
  | unknown
  deriving DecidableEq, Repr

/-- `self.document_patterns`, in dictionary insertion order. -/
def document_patterns : List (DocumentType × List String) :=
  [ (.emirates_id,
      ["emirates id", "identity card", "uae id", "national id",
       "هوية الإمارات", "بطاقة الهوية", "resident flag", "nationality"]),
    (.resume,
      ["resume", "cv", "curriculum vitae", "experience",
       "education", "skills", "employment history", "work experience",
       "professional experience", "career summary"]),
    (.assets_liabilities,
      ["assets", "liabilities", "balance sheet", "financial statement",
       "net worth", "portfolio", "investments", "bank account",
       "savings", "property", "loans", "credit cards"]),
    (.credit_report,
      ["credit report", "credit score", "credit history", "credit bureau",
       "aecb", "al etihad credit bureau", "etihad bureau", "experian", "equifax",
       "cb subject id", "provider no", "credit summary", "payment history",
       "information providers", "response id"]),
    (.bank_statement,
      ["bank statement", "account statement", "transaction history", "account details",
       "opening balance", "closing balance", "debit", "credit", "account balance",
       "emirates nbd", "adcb", "fab", "mashreq", "rakbank", "statement from"]) ]

/-- First document type (in table order) one of whose patterns occurs in the
given lowercased string — the purpose loop and the filename loop of the
classifier, and the final single-hit fallback of the content branch. -/
def patternMatch (s : String) : Option DocumentType :=
  (document_patterns.find? fun tp => tp.2.any fun pat => strContains s pat).map (·.1)

/-- The `purpose_to_type` exact-match table. -/
def exactPurposeMatch (p : String) : Option DocumentType :=
  if p = "emirates_id" then some .emirates_id
  else if p = "credit_report" then some .credit_report
  else if p = "resume" then some .resume
  else if p = "assets_liabilities" then some .assets_liabilities
  else if p = "bank_statement" then some .bank_statement
  else none

/-- The credit-report indicator list of the content-scoring branch. -/
def credit_indicators : List String :=
  ["credit report", "credit score", "credit bureau", "aecb",
   "al etihad credit bureau", "etihad bureau", "cb subject id",
   "provider no", "response id", "information providers"]

/-- The Emirates ID indicator list. -/
def emirates_id_indicators : List String :=
  ["emirates id", "identity card", "uae id", "expiry date", "resident card",
   "issue date", "place of birth"]

/-- The resume indicator list. -/
def resume_indicators : List String :=
  ["work experience", "employment history", "professional experience",
   "education", "skills", "qualifications", "certifications"]

/-- The assets/liabilities indicator list. -/
def assets_indicators : List String :=
  ["balance sheet", "assets", "liabilities", "net worth",
   "investments", "bank account", "financial statement"]

/-- The bank-statement indicator list. -/
def bank_statement_indicators : List String :=
  ["account statement", "transaction", "debit", "credit", "account balance",
   "opening balance", "closing balance", "statement from", "account number",
   "emirates nbd", "adcb", "fab", "mashreq", "rakbank"]

/-- Number of indicators of a list occurring in the lowercased sample. -/
def countMatches (sample : String) (indicators : List String) : Nat :=
  (indicators.filter fun ind => strContains sample ind).length

/-- `type_scores`, in dictionary insertion order: credit-report and
Emirates ID indicators score double per hit; resume and assets need at least
two hits; bank statement needs at least three hits and scores double. -/
def typeScores (sample : String) : List (DocumentType × Nat) :=
  (if 0 < countMatches sample credit_indicators
   then [(.credit_report, countMatches sample credit_indicators * 2)] else [])
  ++ (if 0 < countMatches sample emirates_id_indicators
      then [(.emirates_id, countMatches sample emirates_id_indicators * 2)] else [])
  ++ (if 2 ≤ countMatches sample resume_indicators
      then [(.resume, countMatches sample resume_indicators)] else [])
  ++ (if 2 ≤ countMatches sample assets_indicators
      then [(.assets_liabilities, countMatches sample assets_indicators)] else [])
  ++ (if 3 ≤ countMatches sample bank_statement_indicators
      then [(.bank_statement, countMatches sample bank_statement_indicators * 2)] else [])

/-- Python `max(type_scores, key=type_scores.get)` on a non-empty dict: the
first key (in insertion order) with the maximal score; `none` on the empty
dict (where the code skips the branch). -/
def firstMax : List (DocumentType × Nat) → Option (DocumentType × Nat)
  | [] => none
  | p :: rest =>
    match firstMax rest with
    | none => some p
    | some q => if p.2 < q.2 then some q else some p

/-- The content-based branch: indicator scoring on the non-empty lowercased
text, then the single-hit general-pattern fallback. -/
def contentClassify (sample : String) : Option DocumentType :=
  if sample = "" then none
  else
    match (firstMax (typeScores sample)).map (·.1) with
    | some t => some t
    | none => patternMatch sample

/-- `_classify_document_type`: purpose keywords, exact purpose, filename
keywords, content scoring, content fallback, `unknown`. -/
def classifyDocumentType (filename purpose : String) (content : Option String) :
    DocumentType :=
  let purpose_lower := lowerStr purpose
  match patternMatch purpose_lower with
  | some t => t
  | none =>
    match exactPurposeMatch purpose_lower with
    | some t => t
    | none =>
      match patternMatch (lowerStr filename) with
      | some t => t
      | none =>
        match content with
        | some text => (contentClassify (lowerStr text)).getD .unknown
        | none => .unknown

end Classifier

namespace Merge

/-! ## Profile merger (`document_processor.convert_to_assessment_format`)

The accumulator groups initialised to empty dicts by
`convert_to_assessment_format`, and the per-type mapping functions for
Emirates ID and resume records.  Fields are `Option`-typed: `none` models
an absent key of the accumulated dict. -/

/-- A calendar date, for `_calculate_age`'s `datetime` arithmetic. -/
structure Date where
  year : Int
  month : Int
  day : Int
  deriving DecidableEq, Repr

/-- Best-effort `strptime(s, "%Y-%m-%d")`: three dash-separated decimal
components with the month in 1..12 and the day in 1..31 (the per-month day
count check of `strptime` is immaterial here: no verified behaviour depends
on the age value). -/
def parseIsoDate (s : String) : Option Date :=
  match (s.splitOn "-").map String.toNat? with
  | [some y, some m, some d] =>
    if 1 ≤ m ∧ m ≤ 12 ∧ 1 ≤ d ∧ d ≤ 31 then
      some { year := Int.ofNat y, month := Int.ofNat m, day := Int.ofNat d }
    else none
  | _ => none

/-- `_calculate_age(date_of_birth)` relative to an explicit `today`
(`datetime.now()` in the code): year difference minus one when today's
(month, day) precedes the birth (month, day); `0` for a missing/empty/
unparseable date. -/
def calculateAge (today : Date) (date_of_birth : Option String) : Int :=
  match date_of_birth with
  | none => 0
  | some s =>
    if s = "" then 0
    else
      match parseIsoDate s with
      | some birth =>
        today.year - birth.year
          - (if today.month < birth.month
                ∨ (today.month = birth.month ∧ today.day < birth.day)
             then 1 else 0)
      | none => 0

/-- One entry of a resume's `education` array. -/
structure EducationEntry where
  degree : Option String
  deriving DecidableEq, Repr

/-- The degree-keyword ladder of `_determine_education_level`, in dictionary
insertion order. -/
def educationLevels : List (String × Nat) :=
  [("phd", 6), ("doctorate", 6), ("doctoral", 6),
   ("master", 5), ("masters", 5), ("mba", 5),
   ("bachelor", 4), ("bachelors", 4), ("degree", 4),
   ("diploma", 3), ("associate", 3),
   ("high school", 2), ("secondary", 2),
   ("primary", 1), ("elementary", 1)]

/-- `_determine_education_level`: for each entry the first ladder keyword
contained in the lowercased degree counts; the strictly highest value wins;
`"high_school"` when nothing matched a non-empty list, `"unknown"` for an
empty list. -/
def determineEducationLevel (education : List EducationEntry) : String :=
  if education = [] then "unknown"
  else
    let step := fun (acc : Nat × String) (edu : EducationEntry) =>
      let degree := lowerStr (edu.degree.getD "")
      match educationLevels.find? (fun lv => strContains degree lv.1) with
      | some lv => if acc.1 < lv.2 then (lv.2, lv.1) else acc
      | none => acc
    let best := education.foldl step (0, "unknown")
    if best.2 ≠ "unknown" then best.2 else "high_school"

/-- `personal_info` of an extracted Emirates ID record. -/
structure EmiratesPersonalInfo where
  full_name : Option String
  date_of_birth : Option String
  nationality : Option String
  id_number : Option String
  gender : Option String
  deriving DecidableEq, Repr

/-- `address_info` of an extracted Emirates ID record. -/
structure EmiratesAddressInfo where
  full_address : Option String
  emirate : Option String
  deriving DecidableEq, Repr

/-- The structured record extracted from an Emirates ID document. -/
structure EmiratesIdRecord where
  personal_info : Option EmiratesPersonalInfo
  address_info : Option EmiratesAddressInfo
  deriving DecidableEq, Repr

/-- `personal_info` of an extracted resume record. -/
structure ResumePersonalInfo where
  name : Option String
  deriving DecidableEq, Repr

/-- The structured record extracted from a resume. -/
structure ResumeRecord where
  personal_info : Option ResumePersonalInfo
  employment_history : Option (List String)
  education : Option (List EducationEntry)
  skills : Option (List String)
  languages : Option (List String)
  current_employment_status : Option String
  total_experience_years : Option ℚ
  deriving DecidableEq, Repr

/-- `assessment_data["applicant_info"]` keys written by the two mappers. -/
structure ApplicantInfoAcc where
  name : Option String
  age : Option Int
  address : Option String
  nationality : Option String
  id_number : Option String
  deriving DecidableEq, Repr

/-- `assessment_data["employment_info"]` keys written by the resume mapper. -/
structure EmploymentInfoAcc where
  current_status : Option String
  history : Option (List String)
  total_experience_years : Option ℚ
  skills : Option (List String)
  education_level : Option String
  deriving DecidableEq, Repr

/-- `assessment_data["demographic_info"]` keys written by the two mappers. -/
structure DemographicInfoAcc where
  gender : Option String
  nationality : Option String
  emirate : Option String
  education_level : Option String
  languages : Option (List String)
  deriving DecidableEq, Repr

/-- The slice of `assessment_data` touched by the Emirates ID and resume
mappers. -/
structure AssessmentAcc where
  applicant_info : ApplicantInfoAcc
  employment_info : EmploymentInfoAcc
  demographic_info : DemographicInfoAcc
  deriving DecidableEq, Repr

/-- The fresh accumulator initialised by `convert_to_assessment_format`
(every group an empty dict). -/
def freshAcc : AssessmentAcc :=
  { applicant_info := { name := none, age := none, address := none,
                        nationality := none, id_number := none }
    employment_info := { current_status := none, history := none,
                         total_experience_years := none, skills := none,
                         education_level := none }
    demographic_info := { gender := none, nationality := none, emirate := none,
                          education_level := none, languages := none } }

/-- `_map_emirates_id_data`: unconditionally writes the identity keys into
`applicant_info` (including `name`, even when the extracted full name is
empty) and gender/nationality/emirate into `demographic_info`. -/
def mapEmiratesIdData (today : Date) (record : EmiratesIdRecord)
    (acc : AssessmentAcc) : AssessmentAcc :=
  let personal := record.personal_info
  let address := record.address_info
  { acc with
    applicant_info := { acc.applicant_info with
      name := some ((personal.bind EmiratesPersonalInfo.full_name).getD "")
      age := some (calculateAge today (personal.bind EmiratesPersonalInfo.date_of_birth))
      address := some ((address.bind EmiratesAddressInfo.full_address).getD "")
      nationality := some ((personal.bind EmiratesPersonalInfo.nationality).getD "")
      id_number := some ((personal.bind EmiratesPersonalInfo.id_number).getD "") }
    demographic_info := { acc.demographic_info with
      gender := some ((personal.bind EmiratesPersonalInfo.gender).getD "")
      nationality := some ((personal.bind EmiratesPersonalInfo.nationality).getD "")
      emirate := some ((address.bind EmiratesAddressInfo.emirate).getD "") } }

/-- `_map_resume_data`: fills `applicant_info.name` only when it is unset
(Python truthiness: absent or empty), then overwrites the employment and
demographic keys.  (The `current_job` scan in the code is computed but never
used and is omitted.) -/
def mapResumeData (record : ResumeRecord) (acc : AssessmentAcc) : AssessmentAcc :=
  let personal := record.personal_info
  let education := record.education.getD []
  let name' :=
    if pyTruthy acc.applicant_info.name then acc.applicant_info.name
    else some ((personal.bind ResumePersonalInfo.name).getD "")
  { acc with
    applicant_info := { acc.applicant_info with name := name' }
    employment_info := { acc.employment_info with
      current_status := some (record.current_employment_status.getD "unemployed")
      history := some (record.employment_history.getD [])
      total_experience_years := some (record.total_experience_years.getD 0)
      skills := some (record.skills.getD [])
      education_level := some (determineEducationLevel education) }
    demographic_info := { acc.demographic_info with
      education_level := some (determineEducationLevel education)
      languages := some (record.languages.getD []) } }

/-- Merging an Emirates ID record then a resume record into a fresh profile. -/
def mergeEmiratesThenResume (today : Date) (e : EmiratesIdRecord)
    (r : ResumeRecord) : AssessmentAcc :=
  mapResumeData r (mapEmiratesIdData today e freshAcc)

/-- Merging a resume record then an Emirates ID record into a fresh profile. -/
def mergeResumeThenEmirates (today : Date) (e : EmiratesIdRecord)
    (r : ResumeRecord) : AssessmentAcc :=
  mapEmiratesIdData today e (mapResumeData r freshAcc)

/-- The name the Emirates ID mapper writes: the extracted full name, with
`""` for an absent key. -/
def emiratesName (e : EmiratesIdRecord) : String :=
  (e.personal_info.bind EmiratesPersonalInfo.full_name).getD ""

end Merge

namespace Orchestrator

/-! ## Workflow orchestrator (`workflow_orchestrator.py`)

`process_application_workflow` is embedded as a pure function over
* a file-system view `FileSystem` (existence and size of a path, for
  `os.path.exists` / `os.path.getsize`),
* a `SubAgents` record bundling the externally-behaving collaborators:
  the document processor's `execute` (whose network/LLM work makes its
  result an oracle: success with extracted data, an error status, or a
  raised exception), the composite
  `convert_to_assessment_format` + applicant-info merge +
  `assess_application` step, and the report generator
  `_generate_comprehensive_report` (whose structured LLM call may raise).
The function returns the final workflow state together with the trace of
observable effects: one `extract` event per `document_processor.execute`
call and one `save` event per `_save_workflow_results` call (the save
event carries the directory key, the file names written, and the state
persisted). -/

/-- `WorkflowStatus`. -/
inductive WorkflowStatus
  | initiated
  | processing_documents
  | documents_processed
  | running_assessment
  | assessment_complete
  | completed
  | failed
  deriving DecidableEq, Repr

/-- One entry of the `documents` task list. -/
structure DocInfo where
  file_path : String
  purpose : Option String
  deriving DecidableEq, Repr

/-- The file-system view: `size? p = none` models a non-existing path,
`some n` an existing file of `n` bytes. -/
structure FileSystem where
  size? : String → Option Nat

/-- The caller-supplied `applicant_info` dictionary: `none` models a falsy
(absent or empty) dictionary, `some h` a non-empty one whose
`application_id` key may still be absent. -/
structure AppHints where
  application_id : Option String
  deriving DecidableEq, Repr

/-- The base name of a path: the portion after the last `/`. -/
def baseName (p : String) : List Char :=
  p.toList.foldl (fun acc c => if c = '/' then [] else acc ++ [c]) []

/-- Index of the last `.` in a character list (`str.rfind('.')`). -/
def lastDotIdx (l : List Char) : Option Nat :=
  ((List.range l.length).filter fun i => l.get? i = some '.').getLast?

/-- `Path(file_path).suffix.lower()`: pathlib returns `name[i:]` for the
last dot index `i` when `0 < i < len(name) - 1`, else the empty string. -/
def pathSuffix (p : String) : String :=
  let name := baseName p
  match lastDotIdx name with
  | some i =>
    if 0 < i ∧ i < name.length - 1 then lowerStr (String.mk (name.drop i)) else ""
  | none => ""

/-- `valid_extensions` of `_validate_documents`. -/
def valid_extensions : List String :=
  [".pdf", ".docx", ".doc", ".xlsx", ".xls", ".png", ".jpg", ".jpeg", ".txt"]

/-- The `format_rules` purpose → allowed-extension map. -/
def format_rules : List (String × List String) :=
  [("emirates_id", [".pdf"]),
   ("resume", [".pdf", ".docx", ".doc"]),
   ("assets_liabilities", [".xlsx", ".xls"]),
   ("credit_report", [".pdf", ".txt"]),
   ("bank_statement", [".pdf", ".txt"])]

/-- The `required_docs` coverage flags (a `bank_statement` key is added
dynamically by the assignment `required_docs[purpose] = True`). -/
structure RequiredDocs where
  emirates_id : Bool
  resume : Bool
  assets_liabilities : Bool
  credit_report : Bool
  bank_statement : Bool
  deriving DecidableEq, Repr

/-- `required_docs[purpose] = True`. -/
def setRequired (purpose : String) (r : RequiredDocs) : RequiredDocs :=
  if purpose = "emirates_id" then { r with emirates_id := true }
  else if purpose = "resume" then { r with resume := true }
  else if purpose = "assets_liabilities" then { r with assets_liabilities := true }
  else if purpose = "credit_report" then { r with credit_report := true }
  else if purpose = "bank_statement" then { r with bank_statement := true }
  else r

/-- Accumulator of the per-document validation loop. -/
structure ValidationState where
  errors : List String
  warnings : List String
  required : RequiredDocs
  deriving DecidableEq, Repr

/-- The purpose→allowed-extension rule check of one validation iteration:
an error when the declared purpose has a format rule the extension
violates, the coverage flag when it conforms, nothing for an unruled
purpose.  (The interpolated expected-list repr of the `Invalid format`
message is abbreviated away; no verified behaviour depends on it.) -/
def applyFormatRule (purpose file_ext : String) (acc : ValidationState) :
    ValidationState :=
  match format_rules.find? (fun rule => rule.1 = purpose) with
  | some rule =>
    if file_ext ∉ rule.2 then
      { acc with errors :=
          acc.errors ++ ["Invalid format " ++ file_ext ++ " for " ++ purpose] }
    else { acc with required := setRequired purpose acc.required }
  | none => acc

/-- The 50MB size check of one validation iteration (the `except` arm of
`os.path.getsize` is unreachable here because existence was established
two checks earlier; the size-in-MB interpolation is abbreviated away). -/
def applySizeCheck (fs : FileSystem) (file_path : String) (acc : ValidationState) :
    ValidationState :=
  match fs.size? file_path with
  | some size =>
    if 50 * 1024 * 1024 < size then
      { acc with errors := acc.errors ++ ["File too large: " ++ file_path] }
    else acc
  | none => acc

/-- One iteration of the `_validate_documents` loop. -/
def validateOneDoc (fs : FileSystem) (acc : ValidationState) (doc : DocInfo) :
    ValidationState :=
  if doc.file_path = "" ∨ (fs.size? doc.file_path).isNone then
    { acc with errors := acc.errors ++ ["File not found: " ++ doc.file_path] }
  else if pathSuffix doc.file_path ∉ valid_extensions then
    { acc with errors := acc.errors ++ ["Unsupported file format: "
        ++ pathSuffix doc.file_path ++ " for " ++ doc.file_path] }
  else
    applySizeCheck fs doc.file_path
      (applyFormatRule (lowerStr (doc.purpose.getD "")) (pathSuffix doc.file_path) acc)

/-- Result of `_validate_documents`. -/
structure DocsValidation where
  valid : Bool
  errors : List String
  warnings : List String
  required : RequiredDocs
  deriving DecidableEq, Repr

/-- `_validate_documents`: the per-document loop, then the
missing-critical-document check (Emirates ID absence is an error, resume
absence a warning). -/
def validateDocuments (fs : FileSystem) (documents : List DocInfo) : DocsValidation :=
  let st := documents.foldl (validateOneDoc fs)
    { errors := [], warnings := [],
      required := { emirates_id := false, resume := false,
                    assets_liabilities := false, credit_report := false,
                    bank_statement := false } }
  let errors := st.errors
      ++ (if st.required.emirates_id then [] else ["Missing required document: Emirates ID"])
  let warnings := st.warnings
      ++ (if st.required.resume then []
          else ["Resume/CV not provided - employment assessment may be limited"])
  { valid := errors.length = 0, errors := errors, warnings := warnings,
    required := st.required }

/-- Outcome of one `document_processor.execute` call: a success dictionary
with extracted data, a non-success status dictionary with a message, or a
raised exception. -/
inductive ProcResult (α : Type)
  | success (extracted_data : α)
  | failure (message : String)
  | raised (message : String)
  deriving DecidableEq, Repr

/-- The externally-behaving collaborators of the orchestrator.  `assess`
receives the successfully processed documents and the original application
id (`applicant_info.get("application_id")`), covering
`convert_to_assessment_format`, the applicant-info merge, and
`assess_application`; `report` is `_generate_comprehensive_report`, whose
LLM call may raise. -/
structure SubAgents (α ρ : Type) where
  process : DocInfo → ProcResult α
  assess : List α → Option String → Assessment.AssessOutcome
  report : Assessment.AssessOutcome → Except String ρ

/-- The workflow-state dictionary (timestamps omitted; the `warnings` list
is initialised empty and — notably — never receives the validation
warnings in the code). -/
structure WorkflowState (α ρ : Type) where
  workflow_id : String
  status : WorkflowStatus
  documents : List DocInfo
  applicant_info : Option AppHints
  processed_documents : List α
  assessment_result : Option Assessment.AssessOutcome
  comprehensive_report : Option ρ
  errors : List String
  warnings : List String
  deriving DecidableEq, Repr

/-- Observable side effects of a workflow run. -/
inductive Event (α ρ : Type)
  | extract (doc : DocInfo)
  | save (application_id : String) (files : List String) (state : WorkflowState α ρ)
  deriving DecidableEq, Repr

/-- Whether an event is a persistence call. -/
def Event.isSave {α ρ : Type} : Event α ρ → Bool
  | .extract _ => false
  | .save _ _ _ => true

/-- `.get("application_id")` on the assessment-result dictionary: only the
completed final recommendation carries an `application_id` key; the
insufficient-data and error dictionaries do not. -/
def outcomeApplicationId : Assessment.AssessOutcome → Option String
  | .completed r => some r.application_id
  | .insufficient _ => none
  | .errored _ => none

/-- The application-id fallback chain of `_save_workflow_results`:
assessment result, then applicant info, then the workflow id (with Python
truthiness at each step). -/
def resolveApplicationId (result : Option Assessment.AssessOutcome)
    (applicant_info : Option AppHints) (workflow_id : String) : String :=
  let fromResult : Option String := result.bind outcomeApplicationId
  let fromHints : Option String :=
    if pyTruthy fromResult then fromResult
    else applicant_info.bind AppHints.application_id
  if pyTruthy fromHints then fromHints.getD "" else workflow_id

/-- The files `_save_workflow_results` writes under the application
directory (and the compatibility copy in the output-root). -/
def savedFiles {α ρ : Type} (st : WorkflowState α ρ) (application_id : String) :
    List String :=
  ["workflow_state.json"]
    ++ (if st.assessment_result.isSome
        then ["assessment_result.json", "final_judgment.json"] else [])
    ++ (if st.comprehensive_report.isSome then ["comprehensive_report.json"] else [])
    ++ ["summary.json", "application_status.json",
        "application_status_" ++ application_id ++ ".json"]

/-- `_save_workflow_results` as the persistence event it performs. -/
def saveWorkflowResults {α ρ : Type} (workflow_id : String)
    (st : WorkflowState α ρ) : Event α ρ :=
  let application_id := resolveApplicationId st.assessment_result st.applicant_info workflow_id
  .save application_id (savedFiles st application_id) st

/-- Accumulator of the per-document processing loop. -/
structure LoopAcc (α ρ : Type) where
  processed : List α
  errors : List String
  events : List (Event α ρ)
  deriving DecidableEq, Repr

/-- One iteration of the Step-2 loop: invoke the document processor;
append the extracted data on success, an error string on a non-success
status or a raised exception. -/
def processOneDoc {α ρ : Type} (agents : SubAgents α ρ) (acc : LoopAcc α ρ)
    (doc : DocInfo) : LoopAcc α ρ :=
  match agents.process doc with
  | .success a =>
    { acc with processed := acc.processed ++ [a],
               events := acc.events ++ [.extract doc] }
  | .failure msg =>
    { acc with errors := acc.errors
        ++ ["Failed to process " ++ doc.file_path ++ ": " ++ msg],
               events := acc.events ++ [.extract doc] }
  | .raised msg =>
    { acc with errors := acc.errors
        ++ ["Document processing error for " ++ doc.file_path ++ ": " ++ msg],
               events := acc.events ++ [.extract doc] }

/-- The successfully extracted data of a document batch, in input order. -/
def successesOf {α ρ : Type} (agents : SubAgents α ρ) (documents : List DocInfo) :
    List α :=
  documents.filterMap fun doc =>
    match agents.process doc with
    | .success a => some a
    | .failure _ => none
    | .raised _ => none

/-- `process_application_workflow`: validation gate, per-document loop,
assessment, report, persistence — returning the final state and the event
trace.  A raised report call escapes to the outer `except` handler, which
marks the workflow FAILED and appends the message. -/
def processApplicationWorkflow {α ρ : Type} (fs : FileSystem)
    (agents : SubAgents α ρ) (workflow_id : String) (documents : List DocInfo)
    (applicant_info : Option AppHints) :
    WorkflowState α ρ × List (Event α ρ) :=
  let st0 : WorkflowState α ρ :=
    { workflow_id := workflow_id, status := .initiated, documents := documents,
      applicant_info := applicant_info, processed_documents := [],
      assessment_result := none, comprehensive_report := none,
      errors := [], warnings := [] }
  let st1 := { st0 with status := WorkflowStatus.processing_documents }
  let validation := validateDocuments fs documents
  if validation.valid then
    let looped := documents.foldl (processOneDoc agents)
      { processed := [], errors := [], events := [] }
    let st2 := { st1 with
      processed_documents := looped.processed,
      errors := st1.errors ++ looped.errors,
      status := WorkflowStatus.documents_processed }
    if looped.processed.isEmpty then
      ({ st2 with
          errors := st2.errors ++ ["No documents were successfully processed"],
          status := WorkflowStatus.failed },
        looped.events)
    else
      let original_application_id := applicant_info.bind AppHints.application_id
      let assessment_result := agents.assess looped.processed original_application_id
      let st4 := { st2 with
        assessment_result := some assessment_result,
        status := WorkflowStatus.assessment_complete }
      match agents.report assessment_result with
      | .error e =>
        ({ st4 with status := WorkflowStatus.failed, errors := st4.errors ++ [e] },
          looped.events)
      | .ok rep =>
        let st5 := { st4 with
          comprehensive_report := some rep,
          status := WorkflowStatus.completed }
        (st5, looped.events ++ [saveWorkflowResults workflow_id st5])
  else
    ({ st1 with
        errors := st1.errors ++ validation.errors,
        status := WorkflowStatus.failed },
      [])

/-- Whether one document entry sets the Emirates ID coverage flag in
`_validate_documents`: non-empty existing path, supported extension,
declared purpose `emirates_id`, and the `.pdf` format required for that
purpose. -/
def providesEmiratesId (fs : FileSystem) (doc : DocInfo) : Bool :=
  (doc.file_path ≠ "" : Bool)
    && (fs.size? doc.file_path).isSome
    && decide (pathSuffix doc.file_path ∈ valid_extensions)
    && (lowerStr (doc.purpose.getD "") = "emirates_id" : Bool)
    && (pathSuffix doc.file_path = ".pdf" : Bool)

end Orchestrator

namespace Fixtures

/-! ## Concrete inputs

Closed data used by the counterexample and witness theorems below. -/

open Assessment Orchestrator

/-- An LLM oracle whose calls all succeed. -/
def okLLM : LLMInterface := ⟨fun _ => .ok "analysis"⟩

/-- An LLM oracle whose calls all raise. -/
def badLLM : LLMInterface := ⟨fun _ => .error "boom"⟩

/-- A long-unemployed high-need applicant: every category score maximal,
the employment score pushed to 1.5 by the added unemployment penalty. -/
def cexData : ApplicationData :=
  { application_id := some "APP-CEX"
    applicant_info := some { name := some "A", age := some 65,
                             address := some "Addr", full_name := none }
    income_info := some { annual_income := some 1 }
    employment_info := some { current_status := some "unemployed",
                              months_unemployed := some 5 }
    family_info := some { family_size := some 1, dependents := some 1,
                          special_circumstances :=
                            some ["single_parent", "elderly_care", "disabled_member"] }
    wealth_info := some { savings := some 0, property_value := some 0,
                          total_debts := some 1 }
    demographic_info := some { disability_status := some true,
                               veteran_status := some true,
                               education_level := some "high_school" }
    personal_info := none }

/-- An application with a negative dependents figure, driving the family
score below zero. -/
def cexNegDeps : ApplicationData :=
  { application_id := none
    applicant_info := some { name := some "B", age := some 40,
                             address := some "Addr", full_name := none }
    income_info := some { annual_income := some 100000 }
    employment_info := some { current_status := some "full_time",
                              months_unemployed := some 0 }
    family_info := some { family_size := some 1, dependents := some (-1),
                          special_circumstances := some [] }
    wealth_info := some { savings := some 50000, property_value := some 300000,
                          total_debts := some 0 }
    demographic_info := some { disability_status := some false,
                               veteran_status := some false,
                               education_level := some "master" }
    personal_info := none }

/-- The sample application of the module's test harness (Jane Smith). -/
def janeData : ApplicationData :=
  { application_id := some "APP-2024-001"
    applicant_info := some { name := some "Jane Smith", age := some 34,
                             address := some "123 Main St, Anytown, ST 12345",
                             full_name := none }
    income_info := some { annual_income := some 28000 }
    employment_info := some { current_status := some "part_time",
                              months_unemployed := some 0 }
    family_info := some { family_size := some 3, dependents := some 2,
                          special_circumstances := some ["single_parent"] }
    wealth_info := some { savings := some 1500, property_value := some 0,
                          total_debts := some 15000 }
    demographic_info := some { disability_status := some false,
                               veteran_status := some false,
                               education_level := some "high_school" }
    personal_info := none }

/-- A high-need applicant whose overall score exceeds 0.8. -/
def highData : ApplicationData :=
  { application_id := some "APP-HIGH"
    applicant_info := some { name := some "H", age := some 70,
                             address := some "Addr", full_name := none }
    income_info := some { annual_income := some 10000 }
    employment_info := some { current_status := some "unemployed",
                              months_unemployed := some 12 }
    family_info := some { family_size := some 3, dependents := some 2,
                          special_circumstances := some ["single_parent"] }
    wealth_info := some { savings := some 0, property_value := some 0,
                          total_debts := some 20000 }
    demographic_info := some { disability_status := some false,
                               veteran_status := some false,
                               education_level := some "high_school" }
    personal_info := none }

/-- A well-off applicant whose overall score is below 0.3. -/
def lowData : ApplicationData :=
  { application_id := some "APP-LOW"
    applicant_info := some { name := some "L", age := some 40,
                             address := some "Addr", full_name := none }
    income_info := some { annual_income := some 200000 }
    employment_info := some { current_status := some "full_time",
                              months_unemployed := some 0 }
    family_info := some { family_size := some 1, dependents := some 0,
                          special_circumstances := some [] }
    wealth_info := some { savings := some 50000, property_value := some 300000,
                          total_debts := some 0 }
    demographic_info := some { disability_status := some false,
                               veteran_status := some false,
                               education_level := some "master" }
    personal_info := none }

/-- An applicant whose overall score (0.415) falls in the human-review
band. -/
def midData : ApplicationData :=
  { application_id := some "APP-MID"
    applicant_info := some { name := some "M", age := some 40,
                             address := some "Addr", full_name := none }
    income_info := some { annual_income := some 40000 }
    employment_info := some { current_status := some "full_time",
                              months_unemployed := some 0 }
    family_info := some { family_size := some 1, dependents := some 0,
                          special_circumstances := some [] }
    wealth_info := some { savings := some 5000, property_value := some 250000,
                          total_debts := some 0 }
    demographic_info := some { disability_status := some false,
                               veteran_status := some false,
                               education_level := some "bachelor" }
    personal_info := none }

/-- All four required groups present, but `applicant_info` lacks `name`. -/
def missingNameData : ApplicationData :=
  { application_id := some "APP-NN"
    applicant_info := some { name := none, age := some 30,
                             address := some "Somewhere", full_name := none }
    income_info := some { annual_income := some 1000 }
    employment_info := some { current_status := some "full_time",
                              months_unemployed := some 0 }
    family_info := some { family_size := some 1, dependents := some 0,
                          special_circumstances := some [] }
    wealth_info := none
    demographic_info := none
    personal_info := none }

/-- A fixed "today" for the age computation of the merge fixtures. -/
def today0 : Merge.Date := { year := 2025, month := 6, day := 15 }

/-- An Emirates ID record whose extraction produced no `personal_info`
(so the mapped full name defaults to the empty string). -/
def cexEmirates : Merge.EmiratesIdRecord :=
  { personal_info := none, address_info := none }

/-- A resume record carrying a name. -/
def cexResume : Merge.ResumeRecord :=
  { personal_info := some { name := some "John Smith" }
    employment_history := none, education := none, skills := none,
    languages := none, current_employment_status := none,
    total_experience_years := none }

/-- An Emirates ID record with a non-empty extracted full name. -/
def namedEmirates : Merge.EmiratesIdRecord :=
  { personal_info := some { full_name := some "Alice Example",
                            date_of_birth := some "1990-01-01",
                            nationality := some "UAE",
                            id_number := some "784-1990-0000000",
                            gender := some "F" }
    address_info := some { full_address := some "Dubai", emirate := some "Dubai" } }

/-- A resume record with a different name. -/
def namedResume : Merge.ResumeRecord :=
  { personal_info := some { name := some "Bob Example" }
    employment_history := some ["Job"], education := some [{ degree := some "BSc Degree" }],
    skills := some ["lean"], languages := some ["en"],
    current_employment_status := some "full_time",
    total_experience_years := some 5 }

/-- A file system with no files. -/
def emptyFS : FileSystem := ⟨fun _ => none⟩

/-- A file system holding an Emirates ID PDF and a resume PDF. -/
def demoFS : FileSystem :=
  ⟨fun p => if p = "docs/eid.pdf" then some 1024
            else if p = "docs/resume.pdf" then some 2048 else none⟩

/-- An Emirates ID document entry. -/
def eidDoc : Orchestrator.DocInfo := { file_path := "docs/eid.pdf", purpose := some "emirates_id" }

/-- A resume document entry. -/
def resumeDoc : Orchestrator.DocInfo := { file_path := "docs/resume.pdf", purpose := some "resume" }

/-- Sub-agents whose document processing always returns an error status. -/
def nullAgents : SubAgents String String :=
  { process := fun _ => .failure "Unknown error"
    assess := fun _ _ => .errored "unused"
    report := fun _ => .ok "report" }

/-- A completed assessment result used by the workflow fixtures. -/
def sampleResult : FinalResult :=
  { application_id := "APP-7", applicant_name := "Alice Example",
    status := "approved", overall_score := 1
    individual_assessments :=
      { income := 1, employment := 1, family := 1, wealth := 1, demographic := 1 }
    recommended_support_types := ["financial_assistance"], final_analysis := "ok"
    requires_human_review := false, priority_level := "high" }

/-- Sub-agents for a fully successful workflow run. -/
def goodAgents : SubAgents String String :=
  { process := fun _ => .success "extracted"
    assess := fun _ _ => .completed sampleResult
    report := fun _ => .ok "report" }

end Fixtures

/-- qmax agrees with the lattice `max` on `ℚ`. -/
theorem qmax_eq (a b : ℚ) : qmax a b = max a b := by
  unfold qmax
  rw [max_def]

/-- qmin agrees with the lattice `min` on `ℚ`. -/
theorem qmin_eq (a b : ℚ) : qmin a b = min a b := by
  unfold qmin
  rw [min_def]

namespace Assessment

/-! ## Inversion and bound lemmas -/

/-- Every completed outcome of `assess_application` is the final
recommendation built from the data and some final-analysis string, and the
input passed validation. -/
theorem assessApplication_completed {llm : LLMInterface} {data : ApplicationData}
    {r : FinalResult} (h : assessApplication llm data = .completed r) :
    (validateApplicationData data).valid = true ∧ r = buildFinalResult data r.final_analysis := by
  unfold assessApplication assessApplicationBody at h
  by_cases hv : (validateApplicationData data).valid
  · refine ⟨hv, ?_⟩
    simp only [hv, if_true] at h
    unfold assessIncomeEligibility assessEmploymentHistory assessFamilySituation
      assessWealthStatus assessDemographicProfile generateComprehensiveAssessment
      generateFinalRecommendation at h
    cases h1 : llm.generate_response "income_eligibility" with
    | error e => rw [h1] at h; simp [Except.map, Except.bind, bind] at h
    | ok a1 =>
    rw [h1] at h
    cases h2 : llm.generate_response "employment_history" with
    | error e => rw [h2] at h; simp [Except.map, Except.bind, bind] at h
    | ok a2 =>
    rw [h2] at h
    cases h3 : llm.generate_response "family_situation" with
    | error e => rw [h3] at h; simp [Except.map, Except.bind, bind] at h
    | ok a3 =>
    rw [h3] at h
    cases h4 : llm.generate_response "wealth_status" with
    | error e => rw [h4] at h; simp [Except.map, Except.bind, bind] at h
    | ok a4 =>
    rw [h4] at h
    cases h5 : llm.generate_response "demographic_profile" with
    | error e => rw [h5] at h; simp [Except.map, Except.bind, bind] at h
    | ok a5 =>
    rw [h5] at h
    cases h6 : llm.generate_response "comprehensive_assessment" with
    | error e => rw [h6] at h; simp [Except.map, Except.bind, bind] at h
    | ok a6 =>
    rw [h6] at h
    cases h7 : llm.generate_response "final_recommendation" with
    | error e => rw [h7] at h; simp [Except.map, Except.bind, bind] at h
    | ok a7 =>
    rw [h7] at h
    simp only [Except.map, Except.bind, bind, pure, Except.pure] at h
    cases h
    rfl
  · simp only [hv, if_false, Bool.false_eq_true] at h
    simp [pure, Except.pure] at h

/-- Whenever validation fails, `assess_application` returns the
insufficient-data record carrying the validation errors, for every LLM. -/
theorem assessApplication_invalid {llm : LLMInterface} {data : ApplicationData}
    (hv : (validateApplicationData data).valid = false) :
    assessApplication llm data = .insufficient (validateApplicationData data).errors := by
  unfold assessApplication assessApplicationBody
  simp [hv, pure, Except.pure]

/-- The income score is one of the four band values, hence within `[0, 1]`. -/
theorem incomeScore_bounds (data : ApplicationData) :
    0 ≤ incomeScore data ∧ incomeScore data ≤ 1 := by
  unfold incomeScore
  split_ifs <;> norm_num

/-- The stability weight table only contains values in `[3/10, 1]`. -/
theorem stabilityWeight_bounds (s : String) :
    3/10 ≤ stabilityWeight s ∧ stabilityWeight s ≤ 1 := by
  unfold stabilityWeight
  split_ifs <;> norm_num

/-- The unemployment penalty lies in `[0, 1/2]`. -/
theorem unemploymentPenalty_bounds (m : ℚ) :
    0 ≤ unemploymentPenalty m ∧ unemploymentPenalty m ≤ 1/2 := by
  unfold unemploymentPenalty
  simp only [qmin_eq, qmax_eq]
  split
  · constructor
    · rename_i hm
      rcases le_or_lt (m * (1/10)) (1/2) with h | h
      · rw [min_eq_left h]; positivity
      · rw [min_eq_right h.le]; norm_num
    · exact min_le_right _ _
  · norm_num

/-- The employment score lies in `[0, 3/2]`: the clamp in the code is only a
lower clamp, and the added penalty can push the score up to 1.5. -/
theorem employmentScore_bounds (data : ApplicationData) :
    0 ≤ employmentScore data ∧ employmentScore data ≤ 3/2 := by
  unfold employmentScore
  simp only [qmin_eq, qmax_eq]
  constructor
  · exact le_max_left 0 _
  · apply max_le (by norm_num)
    have h1 := stabilityWeight_bounds
      (getField data.employment_info EmploymentInfo.current_status "unemployed")
    have h2 := unemploymentPenalty_bounds
      (getField data.employment_info EmploymentInfo.months_unemployed 0)
    linarith [h1.2, h2.2]

/-- With a nonnegative dependents figure the family score lies in `[0, 1]`
(a nonpositive family size zeroes the dependency ratio in the code). -/
theorem familyScore_bounds (data : ApplicationData)
    (hdep : 0 ≤ getField data.family_info FamilyInfo.dependents 0) :
    0 ≤ familyScore data ∧ familyScore data ≤ 1 := by
  unfold familyScore
  simp only [qmin_eq, qmax_eq]
  refine ⟨le_min ?_ (by norm_num), min_le_right _ _⟩
  have hratio : (0 : ℚ) ≤
      (if 0 < getField data.family_info FamilyInfo.family_size 1 then
        getField data.family_info FamilyInfo.dependents 0
          / getField data.family_info FamilyInfo.family_size 1
      else 0) := by
    split
    · rename_i hpos
      exact div_nonneg hdep hpos.le
    · exact le_refl 0
  have h1 : (0:ℚ) ≤ (if "single_parent" ∈ getField data.family_info
      FamilyInfo.special_circumstances [] then 3/10 else 0) := by split <;> norm_num
  have h2 : (0:ℚ) ≤ (if "elderly_care" ∈ getField data.family_info
      FamilyInfo.special_circumstances [] then 1/5 else 0) := by split <;> norm_num
  have h3 : (0:ℚ) ≤ (if "disabled_member" ∈ getField data.family_info
      FamilyInfo.special_circumstances [] then 2/5 else 0) := by split <;> norm_num
  have hbase : (0:ℚ) ≤ (if 0 < getField data.family_info FamilyInfo.family_size 1 then
        getField data.family_info FamilyInfo.dependents 0
          / getField data.family_info FamilyInfo.family_size 1
      else 0) * (3/5) := by
    exact mul_nonneg hratio (by norm_num)
  linarith

/-- The wealth score lies in `[0, 1]`. -/
theorem wealthScore_bounds (data : ApplicationData) :
    0 ≤ wealthScore data ∧ wealthScore data ≤ 1 := by
  unfold wealthScore
  simp only [qmin_eq, qmax_eq]
  refine ⟨le_min ?_ (by norm_num), min_le_right _ _⟩
  have h1 : (0:ℚ) ≤ (if getField data.wealth_info WealthInfo.savings 0 < 10000
      then 3/10 else 0) := by split <;> norm_num
  have h2 : (0:ℚ) ≤ (if getField data.wealth_info WealthInfo.property_value 0 < 200000
      then 1/5 else 0) := by split <;> norm_num
  have h3 : (0:ℚ) ≤ (if 2/5 < debtToIncome data then 2/5 else 0) := by split <;> norm_num
  have h4 : (0:ℚ) ≤ (if getField data.wealth_info WealthInfo.savings 0
        + getField data.wealth_info WealthInfo.property_value 0
        - getField data.wealth_info WealthInfo.total_debts 0 < 0
      then 3/10 else 0) := by split <;> norm_num
  linarith

/-- The demographic score lies in `[0, 1]`. -/
theorem demographicScore_bounds (data : ApplicationData) :
    0 ≤ demographicScore data ∧ demographicScore data ≤ 1 := by
  unfold demographicScore
  simp only [qmin_eq, qmax_eq]
  refine ⟨le_min ?_ (by norm_num), min_le_right _ _⟩
  have h1 : (0:ℚ) ≤ (if 65 ≤ getField data.applicant_info ApplicantInfo.age 0
      then 3/10 else 0) := by split <;> norm_num
  have h2 : (0:ℚ) ≤ (if getField data.applicant_info ApplicantInfo.age 0 ≤ 25
      then 1/5 else 0) := by split <;> norm_num
  have h3 : (0:ℚ) ≤ (if getField data.demographic_info DemographicInfo.disability_status false
      then 2/5 else 0) := by split <;> norm_num
  have h4 : (0:ℚ) ≤ (if getField data.demographic_info DemographicInfo.veteran_status false
      then 3/10 else 0) := by split <;> norm_num
  have h5 : (0:ℚ) ≤ (if getField data.demographic_info DemographicInfo.education_level ""
        = "high_school" ∨ getField data.demographic_info DemographicInfo.education_level ""
        = "less_than_high_school" then 1/5 else 0) := by split <;> norm_num
  linarith

/-- Projection: the overall score of the built final record. -/
theorem buildFinalResult_overall (data : ApplicationData) (s : String) :
    (buildFinalResult data s).overall_score = overallScore data := rfl

/-- Projection: the per-category scores of the built final record. -/
theorem buildFinalResult_scores (data : ApplicationData) (s : String) :
    (buildFinalResult data s).individual_assessments = individualScores data := rfl

/-- Projection: the status string of the built final record. -/
theorem buildFinalResult_status (data : ApplicationData) (s : String) :
    (buildFinalResult data s).status = finalStatus (overallScore data) := rfl

/-- Projection: the human-review flag of the built final record. -/
theorem buildFinalResult_review (data : ApplicationData) (s : String) :
    (buildFinalResult data s).requires_human_review
      = decide (2/5 ≤ overallScore data ∧ overallScore data ≤ 3/5) := rfl

/-- The overall score is by definition the weighted sum of the five
category scores. -/
theorem overallScore_eq_weighted_sum (data : ApplicationData) :
    overallScore data = (35/100) * (individualScores data).income
      + (3/10) * (individualScores data).employment
      + (15/100) * (individualScores data).family
      + (15/100) * (individualScores data).wealth
      + (1/20) * (individualScores data).demographic := rfl

/-- Projections of `individualScores`. -/
theorem individualScores_income (data : ApplicationData) :
    (individualScores data).income = incomeScore data := rfl

/-- Projection: employment component. -/
theorem individualScores_employment (data : ApplicationData) :
    (individualScores data).employment = employmentScore data := rfl

/-- Projection: family component. -/
theorem individualScores_family (data : ApplicationData) :
    (individualScores data).family = familyScore data := rfl

/-- Projection: wealth component. -/
theorem individualScores_wealth (data : ApplicationData) :
    (individualScores data).wealth = wealthScore data := rfl

/-- Projection: demographic component. -/
theorem individualScores_demographic (data : ApplicationData) :
    (individualScores data).demographic = demographicScore data := rfl

end Assessment

namespace Classifier

/-- Membership in a conditional singleton list forces equality. -/
theorem mem_ite_singleton {β : Type} {c : Prop} [Decidable c] {a b : β}
    (h : a ∈ (if c then [b] else [])) : a = b := by
  split at h
  · simpa using h
  · simp at h

/-- `firstMax` returns an element of its list. -/
theorem firstMax_mem :
    ∀ {l : List (DocumentType × Nat)} {q}, firstMax l = some q → q ∈ l := by
  intro l
  induction l with
  | nil => intro q h; simp [firstMax] at h
  | cons p rest ih =>
    intro q h
    unfold firstMax at h
    rcases hr : firstMax rest with _ | r
    · rw [hr] at h
      cases h
      exact List.mem_cons_self _ _
    · rw [hr] at h
      have h' : (if p.2 < r.2 then some r else some p) = some q := h
      by_cases hlt : p.2 < r.2
      · rw [if_pos hlt] at h'
        cases h'
        exact List.mem_cons_of_mem _ (ih hr)
      · rw [if_neg hlt] at h'
        cases h'
        exact List.mem_cons_self _ _

/-- Every scored entry carries one of the five concrete document types. -/
theorem typeScores_mem_ne_unknown {s : String} {q : DocumentType × Nat}
    (h : q ∈ typeScores s) : q.1 ≠ .unknown := by
  unfold typeScores at h
  simp only [List.mem_append] at h
  rcases h with ((((h | h) | h) | h) | h) <;>
    · have := mem_ite_singleton h
      subst this
      simp

/-- The pattern table only yields the five concrete document types. -/
theorem patternMatch_ne_unknown {s : String} {t : DocumentType}
    (h : patternMatch s = some t) : t ≠ .unknown := by
  unfold patternMatch at h
  rcases Option.map_eq_some'.mp h with ⟨pair, hfind, hpair⟩
  have hmem := List.mem_of_find?_eq_some hfind
  subst hpair
  simp only [document_patterns, List.mem_cons, List.not_mem_nil, or_false] at hmem
  rcases hmem with h1 | h1 | h1 | h1 | h1 <;> subst h1 <;> simp

/-- The exact-purpose table only yields the five concrete document types. -/
theorem exactPurposeMatch_ne_unknown {s : String} {t : DocumentType}
    (h : exactPurposeMatch s = some t) : t ≠ .unknown := by
  unfold exactPurposeMatch at h
  split_ifs at h <;> cases h <;> decide

/-- Content classification never returns `unknown` as a positive answer. -/
theorem contentClassify_ne_unknown {s : String} {t : DocumentType}
    (h : contentClassify s = some t) : t ≠ .unknown := by
  unfold contentClassify at h
  by_cases hs : s = ""
  · rw [if_pos hs] at h
    cases h
  · rw [if_neg hs] at h
    rcases hm : (firstMax (typeScores s)).map (fun q => q.1) with _ | u
    · rw [hm] at h
      exact patternMatch_ne_unknown h
    · rw [hm] at h
      cases h
      rcases Option.map_eq_some'.mp hm with ⟨q, hq, rfl⟩
      exact typeScores_mem_ne_unknown (firstMax_mem hq)

end Classifier

namespace Orchestrator

/-- The size check never touches the coverage flags. -/
theorem applySizeCheck_required (fs : FileSystem) (p : String)
    (acc : ValidationState) :
    (applySizeCheck fs p acc).required = acc.required := by
  unfold applySizeCheck
  split
  · split <;> rfl
  · rfl

/-- The format-rule step leaves the Emirates ID flag unchanged unless the
purpose is `emirates_id` with a `.pdf` extension. -/
theorem applyFormatRule_emirates {purpose file_ext : String}
    {acc : ValidationState}
    (h : ¬ (purpose = "emirates_id" ∧ file_ext ∈ ([".pdf"] : List String))) :
    (applyFormatRule purpose file_ext acc).required.emirates_id
      = acc.required.emirates_id := by
  unfold applyFormatRule
  split
  · rename_i rule hfind
    have hdec := List.find?_some hfind
    have hp : rule.1 = purpose := of_decide_eq_true hdec
    have hmem : rule ∈ format_rules := List.mem_of_find?_eq_some hfind
    by_cases hext : file_ext ∉ rule.2
    · rw [if_pos hext]
    · rw [if_neg hext]
      simp only [format_rules, List.mem_cons, List.not_mem_nil, or_false] at hmem
      rcases hmem with h5 | h5 | h5 | h5 | h5 <;> subst h5 <;> subst hp <;>
        simp_all [setRequired]
  · rfl

/-- A document that does not provide the Emirates ID leaves the Emirates
ID coverage flag unchanged. -/
theorem validateOneDoc_emirates {fs : FileSystem} {acc : ValidationState}
    {doc : DocInfo} (h : providesEmiratesId fs doc = false) :
    (validateOneDoc fs acc doc).required.emirates_id
      = acc.required.emirates_id := by
  unfold validateOneDoc
  by_cases h1 : doc.file_path = "" ∨ (fs.size? doc.file_path).isNone
  · rw [if_pos h1]
  · rw [if_neg h1]
    by_cases h2 : pathSuffix doc.file_path ∈ valid_extensions
    · rw [if_neg (not_not_intro h2), applySizeCheck_required]
      apply applyFormatRule_emirates
      rintro ⟨hp, he⟩
      rw [not_or] at h1
      obtain ⟨hpath, hnone⟩ := h1
      unfold providesEmiratesId at h
      rcases hfs : fs.size? doc.file_path with _ | sz
      · exact hnone (by rw [hfs]; rfl)
      · rw [hfs] at h
        simp [hpath, h2, hp, List.mem_singleton.mp he, valid_extensions] at h
    · rw [if_pos h2]

/-- Over a batch with no Emirates ID document the coverage flag stays as
it started. -/
theorem foldl_validate_emirates (fs : FileSystem) :
    ∀ (docs : List DocInfo) (acc : ValidationState),
      (∀ d ∈ docs, providesEmiratesId fs d = false) →
      ((docs.foldl (validateOneDoc fs) acc).required).emirates_id
        = acc.required.emirates_id := by
  intro docs
  induction docs with
  | nil => intro acc h; rfl
  | cons d ds ih =>
    intro acc h
    rw [List.foldl_cons, ih _ (fun x hx => h x (List.mem_cons_of_mem _ hx)),
      validateOneDoc_emirates (h d (List.mem_cons_self _ _))]

/-- With no Emirates ID document, `_validate_documents` fails and reports
the missing Emirates ID. -/
theorem validateDocuments_missing_emirates {fs : FileSystem}
    {docs : List DocInfo}
    (h : ∀ d ∈ docs, providesEmiratesId fs d = false) :
    (validateDocuments fs docs).valid = false
      ∧ "Missing required document: Emirates ID"
          ∈ (validateDocuments fs docs).errors := by
  have hflag := foldl_validate_emirates fs docs
    { errors := [], warnings := [],
      required := { emirates_id := false, resume := false,
                    assets_liabilities := false, credit_report := false,
                    bank_statement := false } } h
  unfold validateDocuments
  simp only [hflag]
  constructor
  · simp
  · simp

/-- The processing loop collects exactly the successful extractions, in
input order. -/
theorem foldl_process_processed {α ρ : Type} (agents : SubAgents α ρ) :
    ∀ (docs : List DocInfo) (acc : LoopAcc α ρ),
      (docs.foldl (processOneDoc agents) acc).processed
        = acc.processed ++ successesOf agents docs := by
  intro docs
  induction docs with
  | nil => intro acc; simp [successesOf]
  | cons d ds ih =>
    intro acc
    rw [List.foldl_cons, ih]
    unfold processOneDoc
    rcases hp : agents.process d with a | m | m <;>
      simp [successesOf, List.filterMap_cons, hp]

/-- The processing loop emits only extractor-invocation events. -/
theorem foldl_process_events_extract {α ρ : Type} (agents : SubAgents α ρ) :
    ∀ (docs : List DocInfo) (acc : LoopAcc α ρ),
      (∀ e ∈ acc.events, Event.isSave e = false) →
      ∀ e ∈ (docs.foldl (processOneDoc agents) acc).events,
        Event.isSave e = false := by
  intro docs
  induction docs with
  | nil => intro acc h; exact h
  | cons d ds ih =>
    intro acc h
    rw [List.foldl_cons]
    apply ih
    intro e he
    unfold processOneDoc at he
    rcases hp : agents.process d with a | m | m <;> rw [hp] at he <;>
      · simp only [List.mem_append, List.mem_singleton] at he
        rcases he with he | he
        · exact h e he
        · subst he; rfl

end Orchestrator

namespace Claims

open Assessment Fixtures

/-- C1 counterexample: the claim asserts every category score lies in
`[0, 1]` and hence the overall score does too.  On the concrete completed
application `cexData` (unemployed for 5 months) the employment score is
`1.5 > 1` — the code **adds** the unemployment penalty to the stability
weight — and the overall score is `1.15 > 1`.  On the concrete completed
application `cexNegDeps` (negative dependents figure) the family score is
`-0.6 < 0`. -/
theorem C1_counterexample :
    Assessment.assessApplication Fixtures.okLLM Fixtures.cexData
        = .completed (Assessment.buildFinalResult Fixtures.cexData "analysis")
      ∧ (Assessment.buildFinalResult Fixtures.cexData
          "analysis").individual_assessments.employment = 3/2
      ∧ ¬ Assessment.employmentScore Fixtures.cexData ≤ 1
      ∧ (Assessment.buildFinalResult Fixtures.cexData "analysis").overall_score = 23/20
      ∧ ¬ Assessment.overallScore Fixtures.cexData ≤ 1
      ∧ Assessment.assessApplication Fixtures.okLLM Fixtures.cexNegDeps
          = .completed (Assessment.buildFinalResult Fixtures.cexNegDeps "analysis")
      ∧ (Assessment.buildFinalResult Fixtures.cexNegDeps
          "analysis").individual_assessments.family = -(3/5)
      ∧ ¬ 0 ≤ Assessment.familyScore Fixtures.cexNegDeps := by
  have hinc : incomeScore cexData = 1 := by
    norm_num [incomeScore, incomeRatio, moderateIncomeThreshold, familyMultiplier,
      getField, Option.bind, Option.getD, cexData]
  have hemp : employmentScore cexData = 3/2 := by
    norm_num [employmentScore, stabilityWeight, unemploymentPenalty, qmax, qmin,
      getField, Option.bind, Option.getD, cexData]
  have hfam : familyScore cexData = 1 := by
    norm_num [familyScore, qmin, getField, Option.bind, Option.getD, cexData]
  have hwea : wealthScore cexData = 1 := by
    norm_num [wealthScore, debtToIncome, qmin, getField, Option.bind, Option.getD,
      cexData]
  have hdem : demographicScore cexData = 1 := by
    norm_num [demographicScore, qmin, getField, Option.bind, Option.getD, cexData]
  have hov : overallScore cexData = 23/20 := by
    unfold overallScore
    rw [hinc, hemp, hfam, hwea, hdem]
    norm_num
  have hfam2 : familyScore cexNegDeps = -(3/5) := by
    norm_num [familyScore, qmin, getField, Option.bind, Option.getD, cexNegDeps]
  exact ⟨rfl, hemp, by rw [hemp]; norm_num, hov, by rw [hov]; norm_num,
    rfl, hfam2, by rw [hfam2]; norm_num⟩

/-- C1 (amended): for every application completing assessment, the overall
score equals `0.35·income + 0.30·employment + 0.15·family + 0.15·wealth +
0.05·demographic`; the income, wealth and demographic scores lie in
`[0, 1]`; the family score lies in `[0, 1]` whenever the dependents figure
is nonnegative; the employment score — the stability weight **plus** the
unemployment penalty `min(months_unemployed × 0.1, 0.5)`, clamped below at
0 — lies in `[0, 3/2]`; consequently the overall score lies in
`[0, 23/20]`. -/
theorem C1_amended_score_bounds {llm : LLMInterface} {data : ApplicationData}
    {r : FinalResult}
    (h : assessApplication llm data = .completed r)
    (hdep : 0 ≤ getField data.family_info FamilyInfo.dependents 0) :
    r.overall_score = (35/100) * r.individual_assessments.income
        + (3/10) * r.individual_assessments.employment
        + (15/100) * r.individual_assessments.family
        + (15/100) * r.individual_assessments.wealth
        + (1/20) * r.individual_assessments.demographic
      ∧ 0 ≤ r.individual_assessments.income ∧ r.individual_assessments.income ≤ 1
      ∧ 0 ≤ r.individual_assessments.employment
      ∧ r.individual_assessments.employment ≤ 3/2
      ∧ 0 ≤ r.individual_assessments.family ∧ r.individual_assessments.family ≤ 1
      ∧ 0 ≤ r.individual_assessments.wealth ∧ r.individual_assessments.wealth ≤ 1
      ∧ 0 ≤ r.individual_assessments.demographic
      ∧ r.individual_assessments.demographic ≤ 1
      ∧ 0 ≤ r.overall_score ∧ r.overall_score ≤ 23/20 := by
  obtain ⟨-, hr⟩ := assessApplication_completed h
  rw [hr, buildFinalResult_overall, buildFinalResult_scores,
    individualScores_income, individualScores_employment, individualScores_family,
    individualScores_wealth, individualScores_demographic]
  have hi := incomeScore_bounds data
  have he := employmentScore_bounds data
  have hf := familyScore_bounds data hdep
  have hw := wealthScore_bounds data
  have hd := demographicScore_bounds data
  refine ⟨rfl, hi.1, hi.2, he.1, he.2, hf.1, hf.2, hw.1, hw.2, hd.1, hd.2, ?_, ?_⟩
  · unfold overallScore
    linarith [hi.1, he.1, hf.1, hw.1, hd.1]
  · unfold overallScore
    linarith [hi.2, he.2, hf.2, hw.2, hd.2]

/-- C1 witness: the amended theorem applied to the completed assessment of
the sample application, whose dependents figure is nonnegative. -/
theorem C1_witness :
    0 ≤ (Assessment.buildFinalResult Fixtures.janeData "analysis").overall_score
      ∧ (Assessment.buildFinalResult Fixtures.janeData "analysis").overall_score
        ≤ 23/20 := by
  have hdep : (0:ℚ) ≤ Assessment.getField Fixtures.janeData.family_info
      Assessment.FamilyInfo.dependents 0 := by
    norm_num [Assessment.getField, Option.bind, Option.getD, Fixtures.janeData]
  have h := @C1_amended_score_bounds Fixtures.okLLM Fixtures.janeData
    (Assessment.buildFinalResult Fixtures.janeData "analysis") rfl hdep
  exact ⟨h.2.2.2.2.2.2.2.2.2.2.2.1, h.2.2.2.2.2.2.2.2.2.2.2.2⟩

/-- C4: for every application completing assessment, an overall score
`≥ 0.8` forces the final status `approved` and an overall score `< 0.3`
forces `rejected`, regardless of the preliminary band. -/
theorem C4_final_override {llm : LLMInterface} {data : ApplicationData}
    {r : FinalResult} (h : assessApplication llm data = .completed r) :
    (4/5 ≤ r.overall_score → r.status = "approved")
      ∧ (r.overall_score < 3/10 → r.status = "rejected") := by
  obtain ⟨-, hr⟩ := assessApplication_completed h
  rw [hr, buildFinalResult_overall, buildFinalResult_status]
  constructor
  · intro hge
    unfold finalStatus
    rw [if_neg (by intro hc; linarith), if_pos hge]
    rfl
  · intro hlt
    unfold finalStatus
    rw [if_pos hlt]
    rfl

/-- C4 witness: a high-scoring application (overall 1.08) is approved and a
low-scoring one (overall 0.16) is rejected. -/
theorem C4_witness :
    (Assessment.buildFinalResult Fixtures.highData "analysis").status = "approved"
      ∧ (Assessment.buildFinalResult Fixtures.lowData "analysis").status
        = "rejected" := by
  have hhigh : overallScore highData = 27/25 := by
    simp [overallScore, incomeScore, incomeRatio, moderateIncomeThreshold,
      familyMultiplier, employmentScore, stabilityWeight, unemploymentPenalty,
      familyScore, wealthScore, debtToIncome, demographicScore, qmin, qmax,
      getField, Option.bind, Option.getD, highData]
    norm_num
  have hlow : overallScore lowData = 4/25 := by
    simp [overallScore, incomeScore, incomeRatio, moderateIncomeThreshold,
      familyMultiplier, employmentScore, stabilityWeight, unemploymentPenalty,
      familyScore, wealthScore, debtToIncome, demographicScore, qmin, qmax,
      getField, Option.bind, Option.getD, lowData]
    norm_num
  constructor
  · exact (@C4_final_override Fixtures.okLLM Fixtures.highData
      (Assessment.buildFinalResult Fixtures.highData "analysis") rfl).1
      (show (4:ℚ)/5 ≤ overallScore highData from by rw [hhigh]; norm_num)
  · exact (@C4_final_override Fixtures.okLLM Fixtures.lowData
      (Assessment.buildFinalResult Fixtures.lowData "analysis") rfl).2
      (show overallScore lowData < 3/10 from by rw [hlow]; norm_num)

/-- C5: for every application completing assessment,
`requires_human_review` is true exactly when `0.4 ≤ overall_score ≤ 0.6`,
both boundaries included. -/
theorem C5_review_band {llm : LLMInterface} {data : ApplicationData}
    {r : FinalResult} (h : assessApplication llm data = .completed r) :
    r.requires_human_review = true
      ↔ (2/5 ≤ r.overall_score ∧ r.overall_score ≤ 3/5) := by
  obtain ⟨-, hr⟩ := assessApplication_completed h
  rw [hr, buildFinalResult_review, buildFinalResult_overall]
  simp

/-- C5 witness: the applicant with overall score 0.415 requires human
review. -/
theorem C5_witness :
    (Assessment.buildFinalResult Fixtures.midData "analysis").requires_human_review
      = true := by
  have hmid : overallScore midData = 83/200 := by
    simp [overallScore, incomeScore, incomeRatio, moderateIncomeThreshold,
      familyMultiplier, employmentScore, stabilityWeight, unemploymentPenalty,
      familyScore, wealthScore, debtToIncome, demographicScore, qmin, qmax,
      getField, Option.bind, Option.getD, midData]
    norm_num
  exact (@C5_review_band Fixtures.okLLM Fixtures.midData
    (Assessment.buildFinalResult Fixtures.midData "analysis") rfl).mpr
    ⟨show (2:ℚ)/5 ≤ overallScore midData from by rw [hmid]; norm_num,
     show overallScore midData ≤ 3/5 from by rw [hmid]; norm_num⟩

/-- C8: whenever the assessment body raises, `assess_application` returns a
pending-review outcome carrying `"Assessment error: "` plus the message,
instead of propagating the exception. -/
theorem C8_exception_pending_review {llm : LLMInterface} {data : ApplicationData}
    {e : String} (h : assessApplicationBody llm data = .error e) :
    assessApplication llm data = .errored ("Assessment error: " ++ e)
      ∧ (assessApplication llm data).status = "pending_review" := by
  unfold assessApplication
  rw [h]
  exact ⟨rfl, rfl⟩

/-- C8 witness: with an LLM that raises `"boom"`, the sample application's
assessment returns the pending-review record with the message attached. -/
theorem C8_witness :
    Assessment.assessApplication Fixtures.badLLM Fixtures.janeData
      = .errored ("Assessment error: " ++ "boom") := by
  exact (@C8_exception_pending_review Fixtures.badLLM Fixtures.janeData "boom" rfl).1

/-- C10: even with all four required groups present, a missing nested
`name`, `age` or `address` key makes `assess_application` return the
insufficient-data outcome whose reason lists exactly the missing nested
items, independently of the LLM (no sub-score is computed). -/
theorem C10_nested_validation (llm llm' : LLMInterface) {data : ApplicationData}
    {ai : ApplicantInfo}
    (hai : data.applicant_info = some ai)
    (hinc : data.income_info.isSome = true)
    (hemp : data.employment_info.isSome = true)
    (hfam : data.family_info.isSome = true)
    (hmiss : ai.name = none ∨ ai.age = none ∨ ai.address = none) :
    assessApplication llm data = .insufficient (nestedMissing ai)
      ∧ nestedMissing ai ≠ []
      ∧ assessApplication llm data = assessApplication llm' data := by
  have hgroup : groupMissing data = [] := by
    unfold groupMissing
    rcases Option.isSome_iff_exists.mp hinc with ⟨i, hi⟩
    rcases Option.isSome_iff_exists.mp hemp with ⟨m, hm⟩
    rcases Option.isSome_iff_exists.mp hfam with ⟨f, hf⟩
    rw [hai, hi, hm, hf]
    rfl
  have hne : nestedMissing ai ≠ [] := by
    unfold nestedMissing
    rcases hmiss with h | h | h <;> simp [h]
  have herr : (validateApplicationData data).errors = nestedMissing ai := by
    unfold validateApplicationData
    simp only [hai, hgroup, List.nil_append]
  have hval : (validateApplicationData data).valid = false := by
    unfold validateApplicationData
    simp only [hai, hgroup, List.nil_append]
    simp [List.length_eq_zero, hne]
  refine ⟨?_, hne, ?_⟩
  · rw [@assessApplication_invalid llm data hval, herr]
  · rw [@assessApplication_invalid llm data hval,
      @assessApplication_invalid llm' data hval]

/-- C10 witness: all four groups present but `applicant_info.name` absent:
the outcome is insufficient-data with exactly the one missing item
listed. -/
theorem C10_witness :
    Assessment.assessApplication Fixtures.okLLM Fixtures.missingNameData
      = .insufficient ["Missing applicant info: name"] := by
  have h := @C10_nested_validation Fixtures.okLLM Fixtures.badLLM
    Fixtures.missingNameData
    { name := none, age := some 30, address := some "Somewhere", full_name := none }
    rfl rfl rfl rfl (Or.inl rfl)
  rw [h.1]
  rfl

/-- C3 counterexample: the claim asserts the two merge orders always agree
on `applicant_info.name`.  With an Emirates ID record whose extraction
produced no full name and a resume carrying "John Smith", merging
[emirates_id, resume] yields "John Smith" (the resume fills the falsy empty
name), while [resume, emirates_id] yields "" (the Emirates ID mapper
overwrites the name unconditionally). -/
theorem C3_counterexample :
    (Merge.mergeEmiratesThenResume Fixtures.today0 Fixtures.cexEmirates
        Fixtures.cexResume).applicant_info.name = some "John Smith"
      ∧ (Merge.mergeResumeThenEmirates Fixtures.today0 Fixtures.cexEmirates
          Fixtures.cexResume).applicant_info.name = some ""
      ∧ (Merge.mergeEmiratesThenResume Fixtures.today0 Fixtures.cexEmirates
            Fixtures.cexResume).applicant_info.name
          ≠ (Merge.mergeResumeThenEmirates Fixtures.today0 Fixtures.cexEmirates
            Fixtures.cexResume).applicant_info.name := by
  refine ⟨rfl, rfl, by decide⟩

/-- C3 (amended): provided the Emirates ID record's extracted full name is
non-empty, merging [emirates_id, resume] and [resume, emirates_id] into
fresh profiles yields the same `applicant_info.name`, namely the Emirates
ID name: the Emirates ID mapper overwrites the name unconditionally, and
the resume mapper fills it only when unset or empty. -/
theorem C3_name_convergence (today : Merge.Date) (e : Merge.EmiratesIdRecord)
    (r : Merge.ResumeRecord) (h : Merge.emiratesName e ≠ "") :
    (Merge.mergeEmiratesThenResume today e r).applicant_info.name
        = some (Merge.emiratesName e)
      ∧ (Merge.mergeResumeThenEmirates today e r).applicant_info.name
        = some (Merge.emiratesName e) := by
  constructor
  · unfold Merge.mergeEmiratesThenResume Merge.mapResumeData Merge.mapEmiratesIdData
      Merge.emiratesName
    unfold Merge.emiratesName at h
    simp [pyTruthy, h]
  · rfl

/-- C3 witness: with a non-empty Emirates ID name "Alice Example" and a
resume name "Bob Example", both merge orders produce "Alice Example". -/
theorem C3_witness :
    (Merge.mergeEmiratesThenResume Fixtures.today0 Fixtures.namedEmirates
        Fixtures.namedResume).applicant_info.name = some "Alice Example"
      ∧ (Merge.mergeResumeThenEmirates Fixtures.today0 Fixtures.namedEmirates
          Fixtures.namedResume).applicant_info.name = some "Alice Example" := by
  exact C3_name_convergence Fixtures.today0 Fixtures.namedEmirates
    Fixtures.namedResume (by decide)

/-- C9: classification resolves in a fixed order with first match winning:
a purpose-keyword hit decides the type without consulting the filename or
the content; otherwise an exact purpose match decides it likewise;
otherwise a filename-keyword hit decides it without consulting the
content; otherwise the result is the content-based classification
(scoring, then the single-hit fallback) and `unknown` exactly when that
also fails. -/
theorem C9_classification_order (fn fn2 p : String) (c c2 : Option String) :
    (∀ t, Classifier.patternMatch (lowerStr p) = some t →
        Classifier.classifyDocumentType fn p c = t
          ∧ Classifier.classifyDocumentType fn p c
            = Classifier.classifyDocumentType fn2 p c2)
      ∧ (Classifier.patternMatch (lowerStr p) = none →
          ∀ t, Classifier.exactPurposeMatch (lowerStr p) = some t →
            Classifier.classifyDocumentType fn p c = t
              ∧ Classifier.classifyDocumentType fn p c
                = Classifier.classifyDocumentType fn2 p c2)
      ∧ (Classifier.patternMatch (lowerStr p) = none →
          Classifier.exactPurposeMatch (lowerStr p) = none →
            ∀ t, Classifier.patternMatch (lowerStr fn) = some t →
              Classifier.classifyDocumentType fn p c = t
                ∧ Classifier.classifyDocumentType fn p c
                  = Classifier.classifyDocumentType fn p c2)
      ∧ (Classifier.patternMatch (lowerStr p) = none →
          Classifier.exactPurposeMatch (lowerStr p) = none →
            Classifier.patternMatch (lowerStr fn) = none →
              Classifier.classifyDocumentType fn p c
                = ((c.bind fun text =>
                    Classifier.contentClassify (lowerStr text)).getD .unknown))
      ∧ (Classifier.classifyDocumentType fn p c = .unknown →
          Classifier.patternMatch (lowerStr p) = none
            ∧ Classifier.exactPurposeMatch (lowerStr p) = none
            ∧ Classifier.patternMatch (lowerStr fn) = none
            ∧ (c.bind fun text =>
                Classifier.contentClassify (lowerStr text)) = none) := by
  refine ⟨?_, ?_, ?_, ?_, ?_⟩
  · intro t h
    constructor <;> simp [Classifier.classifyDocumentType, h]
  · intro h0 t h
    constructor <;> simp [Classifier.classifyDocumentType, h0, h]
  · intro h0 h1 t h
    constructor <;> simp [Classifier.classifyDocumentType, h0, h1, h]
  · intro h0 h1 h2
    cases c with
    | none => simp [Classifier.classifyDocumentType, h0, h1, h2]
    | some text => simp [Classifier.classifyDocumentType, h0, h1, h2]
  · intro h
    rcases h0 : Classifier.patternMatch (lowerStr p) with _ | t0
    · rcases h1 : Classifier.exactPurposeMatch (lowerStr p) with _ | t1
      · rcases h2 : Classifier.patternMatch (lowerStr fn) with _ | t2
        · refine ⟨rfl, rfl, rfl, ?_⟩
          cases c with
          | none => rfl
          | some text =>
            rcases h3 : Classifier.contentClassify (lowerStr text) with _ | t3
            · simp [h3]
            · simp only [Classifier.classifyDocumentType, h0, h1, h2, h3,
                Option.some_bind, Option.getD_some] at h
              exact absurd h (Classifier.contentClassify_ne_unknown h3)
        · exfalso
          simp only [Classifier.classifyDocumentType, h0, h1, h2] at h
          exact Classifier.patternMatch_ne_unknown h2 h
      · exfalso
        simp only [Classifier.classifyDocumentType, h0, h1] at h
        exact Classifier.exactPurposeMatch_ne_unknown h1 h
    · exfalso
      simp only [Classifier.classifyDocumentType, h0] at h
      exact Classifier.patternMatch_ne_unknown h0 h

/-- C9 witness: the declared purpose "resume" hits the resume keyword list,
so the type is `resume` regardless of the filename and the content. -/
theorem C9_witness :
    Classifier.classifyDocumentType "a.pdf" "resume" none = .resume
      ∧ Classifier.classifyDocumentType "a.pdf" "resume" none
        = Classifier.classifyDocumentType "eid.pdf" "resume" (some "bank text") := by
  exact (C9_classification_order "a.pdf" "eid.pdf" "resume" none
    (some "bank text")).1 .resume (by decide)

/-- C6: when no input document provides the Emirates ID (declared purpose
`emirates_id` on an existing, supported, `.pdf` file), validation fails:
the workflow ends FAILED with the error naming "Emirates ID", and no event
is emitted — in particular the Content Extractor is never invoked. -/
theorem C6_missing_emirates_aborts {α ρ : Type} (fs : Orchestrator.FileSystem)
    (agents : Orchestrator.SubAgents α ρ) (wid : String)
    (docs : List Orchestrator.DocInfo) (hints : Option Orchestrator.AppHints)
    (h : ∀ d ∈ docs, Orchestrator.providesEmiratesId fs d = false) :
    (Orchestrator.processApplicationWorkflow fs agents wid docs hints).1.status
        = .failed
      ∧ "Missing required document: Emirates ID"
          ∈ (Orchestrator.processApplicationWorkflow fs agents wid docs hints).1.errors
      ∧ (Orchestrator.processApplicationWorkflow fs agents wid docs hints).2 = [] := by
  obtain ⟨hv, hmem⟩ := Orchestrator.validateDocuments_missing_emirates h
  simp only [Orchestrator.processApplicationWorkflow, hv, Bool.false_eq_true,
    if_false]
  refine ⟨by trivial, by simpa using hmem, by trivial⟩

/-- C6 witness: a batch holding only a resume never sets the Emirates ID
flag; the workflow fails with the Emirates ID error before any extractor
call. -/
theorem C6_witness :
    (Orchestrator.processApplicationWorkflow Fixtures.demoFS Fixtures.goodAgents
        "WF-3" [Fixtures.resumeDoc] none).1.status = .failed
      ∧ "Missing required document: Emirates ID"
          ∈ (Orchestrator.processApplicationWorkflow Fixtures.demoFS
              Fixtures.goodAgents "WF-3" [Fixtures.resumeDoc] none).1.errors
      ∧ (Orchestrator.processApplicationWorkflow Fixtures.demoFS Fixtures.goodAgents
          "WF-3" [Fixtures.resumeDoc] none).2 = [] := by
  apply C6_missing_emirates_aborts
  intro d hd
  simp only [List.mem_singleton] at hd
  subst hd
  rfl

/-- C7: when validation passes, the processed-documents list is exactly
the successful extractions (failed documents are excluded); if every
per-document call fails the workflow ends FAILED with a non-empty error
list and no assessment result; and a per-document failure alongside at
least one success does not force FAILED — with the report call
succeeding, the run completes. -/
theorem C7_zero_processed_fails {α ρ : Type} (fs : Orchestrator.FileSystem)
    (agents : Orchestrator.SubAgents α ρ) (wid : String)
    (docs : List Orchestrator.DocInfo) (hints : Option Orchestrator.AppHints)
    (hv : (Orchestrator.validateDocuments fs docs).valid = true) :
    (Orchestrator.processApplicationWorkflow fs agents wid docs hints).1.processed_documents
        = Orchestrator.successesOf agents docs
      ∧ (Orchestrator.successesOf agents docs = [] →
          (Orchestrator.processApplicationWorkflow fs agents wid docs hints).1.status
              = .failed
            ∧ (Orchestrator.processApplicationWorkflow fs agents wid docs hints).1.errors
                ≠ []
            ∧ (Orchestrator.processApplicationWorkflow fs agents wid docs
                hints).1.assessment_result = none)
      ∧ (Orchestrator.successesOf agents docs ≠ [] →
          ∀ rep, agents.report (agents.assess (Orchestrator.successesOf agents docs)
              (hints.bind Orchestrator.AppHints.application_id)) = .ok rep →
            (Orchestrator.processApplicationWorkflow fs agents wid docs hints).1.status
              = .completed) := by
  have hproc : (docs.foldl (Orchestrator.processOneDoc agents)
      { processed := [], errors := [], events := [] }).processed
        = Orchestrator.successesOf agents docs := by
    rw [Orchestrator.foldl_process_processed]
    simp
  simp only [Orchestrator.processApplicationWorkflow, hv, if_true, hproc]
  by_cases hempty : Orchestrator.successesOf agents docs = []
  · simp only [hempty, List.isEmpty_nil, if_true]
    refine ⟨by trivial, fun _ => ⟨by trivial, by simp, by trivial⟩,
      fun hne => absurd rfl hne⟩
  · have hne' : (Orchestrator.successesOf agents docs).isEmpty = false := by
      cases he : Orchestrator.successesOf agents docs with
      | nil => exact absurd he hempty
      | cons a l => rfl
    simp only [hne', Bool.false_eq_true, if_false]
    rcases hr : agents.report (agents.assess (Orchestrator.successesOf agents docs)
        (hints.bind Orchestrator.AppHints.application_id)) with e | rep
    · simp only [hr]
      exact ⟨by trivial, fun he => absurd he hempty,
        fun _ rep2 hrep => nomatch hrep⟩
    · simp only [hr]
      exact ⟨by trivial, fun he => absurd he hempty,
        fun _ rep2 hrep => by trivial⟩

/-- C7 witness: an Emirates ID batch passing validation whose single
document fails processing: the run is FAILED, the error list non-empty,
and no assessment result is produced. -/
theorem C7_witness :
    (Orchestrator.processApplicationWorkflow Fixtures.demoFS Fixtures.nullAgents
        "WF-4" [Fixtures.eidDoc] none).1.status = .failed
      ∧ (Orchestrator.processApplicationWorkflow Fixtures.demoFS Fixtures.nullAgents
          "WF-4" [Fixtures.eidDoc] none).1.errors ≠ []
      ∧ (Orchestrator.processApplicationWorkflow Fixtures.demoFS Fixtures.nullAgents
          "WF-4" [Fixtures.eidDoc] none).1.assessment_result = none := by
  exact (C7_zero_processed_fails Fixtures.demoFS Fixtures.nullAgents "WF-4"
    [Fixtures.eidDoc] none rfl).2.1 rfl

/-- C2 counterexample: the claim asserts persistence on COMPLETED **or
FAILED**.  The concrete run with an empty batch terminates FAILED and
emits no save event: nothing is persisted. -/
theorem C2_counterexample :
    (Orchestrator.processApplicationWorkflow Fixtures.emptyFS Fixtures.nullAgents
        "WF-1" [] none).1.status = .failed
      ∧ (Orchestrator.processApplicationWorkflow Fixtures.emptyFS Fixtures.nullAgents
          "WF-1" [] none).2 = [] :=
  ⟨rfl, rfl⟩

/-- C2 (amended): persistence happens exactly on COMPLETED: a run ending
COMPLETED emits exactly one save event — `_save_workflow_results` with the
full final state, keyed by the application id resolved from the assessment
result, falling back to the applicant-info id and then the workflow id —
while a run ending FAILED emits no save event at all. -/
theorem C2_persist_only_completed {α ρ : Type} (fs : Orchestrator.FileSystem)
    (agents : Orchestrator.SubAgents α ρ) (wid : String)
    (docs : List Orchestrator.DocInfo) (hints : Option Orchestrator.AppHints) :
    ((Orchestrator.processApplicationWorkflow fs agents wid docs hints).1.status
          = .completed →
        ((Orchestrator.processApplicationWorkflow fs agents wid docs
            hints).2.filter Orchestrator.Event.isSave)
          = [Orchestrator.saveWorkflowResults wid
              (Orchestrator.processApplicationWorkflow fs agents wid docs hints).1])
      ∧ ((Orchestrator.processApplicationWorkflow fs agents wid docs hints).1.status
            = .failed →
          ((Orchestrator.processApplicationWorkflow fs agents wid docs
              hints).2.filter Orchestrator.Event.isSave) = []) := by
  have hnosave : ∀ e ∈ (docs.foldl (Orchestrator.processOneDoc agents)
      { processed := [], errors := [], events := [] }).events,
      Orchestrator.Event.isSave e = false :=
    Orchestrator.foldl_process_events_extract agents docs _ (by simp)
  have hfilter : ((docs.foldl (Orchestrator.processOneDoc agents)
      { processed := [], errors := [], events := [] }).events).filter
        Orchestrator.Event.isSave = [] := by
    rw [List.filter_eq_nil_iff]
    intro e he
    simp [hnosave e he]
  by_cases hv : (Orchestrator.validateDocuments fs docs).valid = true
  · simp only [Orchestrator.processApplicationWorkflow, hv, if_true]
    by_cases hempty : ((docs.foldl (Orchestrator.processOneDoc agents)
        { processed := [], errors := [], events := [] }).processed).isEmpty = true
    · simp only [hempty, if_true]
      refine ⟨?_, ?_⟩ <;>
        first
          | trivial
          | rfl
          | exact hfilter
          | (intro hc; exact hfilter)
          | (intro hc; rfl)
          | (intro hc; exact nomatch hc)
    · have hempty' : ((docs.foldl (Orchestrator.processOneDoc agents)
          { processed := [], errors := [], events := [] }).processed).isEmpty
            = false := by
        cases hb : ((docs.foldl (Orchestrator.processOneDoc agents)
            { processed := [], errors := [], events := [] }).processed).isEmpty
        · rfl
        · exact absurd hb hempty
      simp only [hempty', Bool.false_eq_true, if_false]
      rcases hr : agents.report (agents.assess (docs.foldl
          (Orchestrator.processOneDoc agents)
          { processed := [], errors := [], events := [] }).processed
          (hints.bind Orchestrator.AppHints.application_id)) with e | rep
      · simp only [hr]
        refine ⟨?_, ?_⟩ <;>
          first
            | trivial
            | rfl
            | exact hfilter
            | (intro hc; exact hfilter)
            | (intro hc; rfl)
            | (intro hc; exact nomatch hc)
      · simp only [hr]
        refine ⟨fun _ => ?_, fun hc => nomatch hc⟩
        rw [List.filter_append, hfilter, List.nil_append]
        rfl
  · have hv' : (Orchestrator.validateDocuments fs docs).valid = false := by
      cases hb : (Orchestrator.validateDocuments fs docs).valid
      · rfl
      · exact absurd hb hv
    simp only [Orchestrator.processApplicationWorkflow, hv', Bool.false_eq_true,
      if_false]
    refine ⟨?_, ?_⟩ <;>
      first
        | trivial
        | rfl
        | (intro hc; rfl)
        | (intro hc; exact nomatch hc)

/-- C2 witness: a fully successful run ends COMPLETED and its event trace
carries exactly the one save event of `_save_workflow_results`. -/
theorem C2_witness :
    ((Orchestrator.processApplicationWorkflow Fixtures.demoFS Fixtures.goodAgents
        "WF-2" [Fixtures.eidDoc] none).2.filter Orchestrator.Event.isSave)
      = [Orchestrator.saveWorkflowResults "WF-2"
          (Orchestrator.processApplicationWorkflow Fixtures.demoFS
            Fixtures.goodAgents "WF-2" [Fixtures.eidDoc] none).1] := by
  exact (C2_persist_only_completed Fixtures.demoFS Fixtures.goodAgents "WF-2"
    [Fixtures.eidDoc] none).1 rfl

end Claims

end SocialSecurity
